import Mathlib

/-!
Verification of the laster HTML parser (tokenizer, node arena, tree
constructor) against its natural-language specification.

The Rust source is embedded shallowly:
* machine integers (`usize` node ids, cursor positions) become `Nat`;
* `Vec<T>` becomes `List T`;
* code that can panic (`unwrap`, `expect`, `todo!`, `unreachable!`) returns
  in the result type `Res`, whose `panic` constructor marks the abort;
* unbounded `loop`/`while` constructs take an explicit fuel argument and
  answer `Res.timeout` when the fuel runs out, so divergence of the source
  is expressed as `∀ fuel, run fuel s = Res.timeout`;
* printing to stderr (`Parser::error`, i.e. the parse-error sink) becomes
  an accumulating list of messages.
-/

namespace Laster

/-- Outcome of running a piece of Rust code: a panic (from `unwrap`,
`expect`, `todo!`, `unreachable!`), fuel exhaustion of an embedded loop,
or a normal result. -/
inductive Res (α : Type) where
  | panic : Res α
  | timeout : Res α
  | ok : α → Res α
deriving DecidableEq, Repr

def Res.bind {α β : Type} : Res α → (α → Res β) → Res β
  | .panic, _ => .panic
  | .timeout, _ => .timeout
  | .ok a, f => f a

instance : Monad Res where
  pure := Res.ok
  bind := Res.bind

/-- `Option::unwrap` / `Option::expect`: panics on `None`. -/
def unwrapO {α : Type} : Option α → Res α
  | none => Res.panic
  | some a => Res.ok a

@[simp] theorem Res.bind_ok {α β : Type} (a : α) (f : α → Res β) :
    Res.bind (Res.ok a) f = f a := rfl

@[simp] theorem Res.bind_panic {α β : Type} (f : α → Res β) :
    Res.bind (Res.panic : Res α) f = Res.panic := rfl

@[simp] theorem Res.bind_timeout {α β : Type} (f : α → Res β) :
    Res.bind (Res.timeout : Res α) f = Res.timeout := rfl

@[simp] theorem bind_eq_rbind {α β : Type} (x : Res α) (f : α → Res β) :
    x >>= f = Res.bind x f := rfl

@[simp] theorem pure_eq_rok {α : Type} (a : α) : (pure a : Res α) = Res.ok a := rfl

/-! ## Node model — src/dom/src/node.rs -/

/-- Node id: `pub type NodeId = usize;` (arena.rs). -/
abbrev NodeId := Nat

/-- `enum NodeKind` (node.rs). The Rust field `prefix` is rendered `pfx`
because `prefix` is reserved in Lean. -/
inductive NodeKind where
  | document : NodeKind
  | element (namespace_uri : Option String) (pfx : Option String)
      (local_name : String) (tag_name : String) : NodeKind
  | text (data : String) : NodeKind
  | doctype (name : String) (public_id : String) (system_id : String) : NodeKind
deriving DecidableEq, Repr

/-- `struct Node` (node.rs). -/
structure Node where
  kind : NodeKind
  document : Option NodeId
  children : List NodeId
  parent : Option NodeId
deriving DecidableEq, Repr

namespace Node

/-- `Node::create_element` (node.rs); namespace url is already a string here. -/
def create_element (document : NodeId) (local_name : String)
    (namespace_url : String) (pfx : Option String) : Node :=
  { kind := .element (some namespace_url) pfx local_name local_name
    document := some document
    children := []
    parent := none }

/-- `Node::create_document` (node.rs). -/
def create_document : Node :=
  { kind := .document, document := none, children := [], parent := none }

/-- `Node::create_text` (node.rs). -/
def create_text (document : NodeId) (data : String) : Node :=
  { kind := .text data, document := some document, children := [], parent := none }

/-- `Node::create_doctype` (node.rs). -/
def create_doctype (document : NodeId) (name public_id system_id : String) : Node :=
  { kind := .doctype name public_id system_id
    document := some document
    children := []
    parent := none }

/-- `Node::is_document` (node.rs). -/
def is_document (n : Node) : Bool := n.kind = NodeKind.document

/-- `Node::is_element` (node.rs). -/
def is_element (n : Node) : Bool :=
  match n.kind with
  | .element _ _ _ _ => true
  | _ => false

/-- `Node::is_element_in_namespace` (node.rs), with the namespace url string. -/
def is_element_in_namespace (n : Node) (url : String) : Bool :=
  match n.kind with
  | .element ns _ _ _ => ns = some url
  | _ => false

/-- `Node::is_element_with_tag_name` (node.rs). -/
def is_element_with_tag_name (n : Node) (tag : String) : Bool :=
  match n.kind with
  | .element _ _ _ name => name = tag
  | _ => false

/-- `Node::is_element_with_one_of_tag_names` (node.rs). -/
def is_element_with_one_of_tag_names (n : Node) (tags : List String) : Bool :=
  match n.kind with
  | .element _ _ _ name => tags.contains name
  | _ => false

end Node

/-! ## Node arena — src/dom/src/arena.rs -/

/-- `struct NodeArena { nodes: Vec<Node> }`. -/
structure NodeArena where
  nodes : List Node
deriving DecidableEq, Repr

namespace NodeArena

def new : NodeArena := { nodes := [] }

/-- `NodeArena::create_node`: push and return the new index. -/
def create_node (a : NodeArena) (n : Node) : NodeArena × NodeId :=
  ({ nodes := a.nodes ++ [n] }, a.nodes.length)

/-- `NodeArena::get_node`: `self.nodes.get(node_id).unwrap()`. -/
def get_node (a : NodeArena) (id : NodeId) : Res Node :=
  unwrapO (a.nodes.get? id)

/-- Write-back half of `NodeArena::get_node_mut`: replace the node at `id`.
All `get_node_mut` uses in the source mutate exactly one node in place. -/
def set_node (a : NodeArena) (id : NodeId) (n : Node) : NodeArena :=
  { nodes := a.nodes.set id n }

/-- `NodeArena::get_node_id`: index of the first node equal (`PartialEq`)
to the given node; `unwrap` panics when absent. -/
def get_node_id (a : NodeArena) (n : Node) : Res NodeId :=
  unwrapO (a.nodes.findIdx? (fun m => m = n))

/-- `Node::node_document` (node.rs): the recorded document, or the node's
own id (looked up by equality) for a Document node. -/
def node_document (a : NodeArena) (n : Node) : Res NodeId :=
  match n.document with
  | some document => Res.ok document
  | none => a.get_node_id n

/-- `NodeArena::previous_sibling` (arena.rs). -/
def previous_sibling (a : NodeArena) (node : NodeId) : Res (Option NodeId) := do
  let n ← a.get_node node
  match n.parent with
  | some parent => do
      let p ← a.get_node parent
      let children := p.children
      match children.indexOf? node with
      | some index =>
          if 0 < index then
            Res.ok (children.get? (index - 1))
          else
            Res.ok none
      | none => Res.ok none
  | none => Res.ok none

/-- `NodeArena::adopt` (arena.rs): `todo!()` (panic) when the node still has
a parent; when the destination document differs from the node's document,
set the `document` field of each *direct child* of the node. The node's own
`document` field is left untouched. -/
def adopt (a : NodeArena) (node : NodeId) (document : NodeId) : Res NodeArena := do
  let n ← a.get_node node
  let old_document ← a.node_document n
  if n.parent.isSome then
    Res.panic
  else
    if document ≠ old_document then
      let children := n.children
      children.foldlM (fun (acc : NodeArena) child => do
        let c ← acc.get_node child
        Res.ok (acc.set_node child { c with document := some document })) a
    else
      Res.ok a

/-- `NodeArena::insert` (arena.rs): adopt into the parent's node document,
then place the node in the parent's child list — before `before_child`
when given (`unwrap` panics if `before_child` is not among the children),
appended otherwise. The child's `parent` field is never written. -/
def insert (a : NodeArena) (node : NodeId) (into_parent : NodeId)
    (before_child : Option NodeId) : Res NodeArena := do
  let p ← a.get_node into_parent
  let doc ← a.node_document p
  let a ← a.adopt node doc
  match before_child with
  | some before_child => do
      let p ← a.get_node into_parent
      let index ← unwrapO (p.children.indexOf? before_child)
      Res.ok (a.set_node into_parent
        { p with children := p.children.insertIdx index node })
  | none => do
      let p ← a.get_node into_parent
      Res.ok (a.set_node into_parent { p with children := p.children ++ [node] })

/-- `NodeArena::pre_insert` (arena.rs). -/
def pre_insert (a : NodeArena) (node : NodeId) (into_parent : NodeId)
    (before_child : Option NodeId) : Res (NodeArena × NodeId) := do
  let a ← a.insert node into_parent before_child
  Res.ok (a, node)

/-- `NodeArena::append` (arena.rs): pre-insert before null. -/
def append (a : NodeArena) (node : NodeId) (into_parent : NodeId) :
    Res (NodeArena × NodeId) :=
  a.pre_insert node into_parent none

end NodeArena

/-! ## Tokenizer — src/dom/src/tokenizer.rs

The input is embedded as the decoded scalar sequence `List Char`; the Rust
code addresses it both via `chars().nth(insertion_point)` and via the byte
slice `html[insertion_point..]`, which coincide on ASCII input (all inputs
exercised here, and the two words passed to `consume_word`, are ASCII). -/

/-- `enum State` (tokenizer.rs). -/
inductive TState where
  | Data | RcData | RawText | ScriptData | PlainText
  | TagOpen | EndTagOpen | TagName
  | RcDataLessThanSign | RcDataEndTagOpen | RcDataEndTagName
  | RawTextLessThanSign | RawTextEndTagOpen | RawTextEndTagName
  | ScriptDataLessThanSign | ScriptDataEndTagOpen | ScriptDataEndTagName
  | ScriptDataEscapeStart | ScriptDataEscapeStartDash | ScriptDataEscaped
  | ScriptDataEscapedDash | ScriptDataEscapedDashDash
  | ScriptDataEscapedLessThanSign | ScriptDataEscapedEndTagOpen
  | ScriptDataEscapedEndTagName | ScriptDataDoubleEscapeStart
  | ScriptDataDoubleEscaped | ScriptDataDoubleEscapedDash
  | ScriptDataDoubleEscapedDashDash | ScriptDataDoubleEscapedLessThanSign
  | ScriptDataDoubleEscapeEnd
  | BeforeAttributeName | AttributeName | AfterAttributeName
  | BeforeAttributeValue | AttributeValueDoubleQuoted
  | AttributeValueSingleQuoted | AttributeValueUnquoted
  | AfterAttributeValueQuoted | SelfClosingStartTag | BogusComment
  | MarkupDeclarationOpen | CommentStart | CommentStartDash | Comment
  | CommentLessThanSign | CommentLessThanSignBang | CommentLessThanSignBangDash
  | CommentLessThanSignBangDashDash | CommentEndDash | CommentEnd
  | CommentEndBang | Doctype | BeforeDoctypeName | DoctypeName
  | AfterDoctypeName | AfterDoctypePublicKeyword
  | BeforeDoctypePublicIdentifier | DoctypePublicIdentifierDoubleQuoted
  | DoctypePublicIdentifierSingleQuoted | AfterDoctypePublicIdentifier
  | BetweenDoctypePublicAndSystemIdentifiers | AfterDoctypeSystemKeyword
  | BeforeDoctypeSystemIdentifier | DoctypeSystemIdentifierDoubleQuoted
  | DoctypeSystemIdentifierSingleQuoted | AfterDoctypeSystemIdentifier
  | BogusDoctype | CDataSection | CDataSectionBracket | CDataSectionEnd
  | CharacterReference | NamedCharacterReference | AmbiguousAmpersand
  | NumericCharacterReference | HexadecimalCharacterReferenceStart
  | DecimalCharacterReferenceStart | HexadecimalCharacterReference
  | DecimalCharacterReference | NumericCharacterReferenceEnd
deriving DecidableEq, Repr

/-- `struct Attribute` (tokenizer.rs). -/
structure Attribute where
  name : String
  value : String
deriving DecidableEq, Repr

/-- `enum Token` (tokenizer.rs). The zaailing copy of the tokenizer (its
source file is not in the repository snapshot) extends `Tag` with a
`self_closing: bool` flag per spec §3; the tree constructor never reads
that flag, so the dom shape is used throughout. -/
inductive Token where
  | EndOfFile : Token
  | Character (c : Char) : Token
  | Tag (start : Bool) (tag_name : String) (attributes : List Attribute) : Token
  | Comment (data : String) : Token
  | Doctype (name : String) (public_identifier : Option String)
      (system_identifier : Option String) : Token
deriving DecidableEq, Repr

namespace Token

/-- `Token::is_start_tag` (tokenizer.rs). -/
def is_start_tag : Token → Bool
  | .Tag start _ _ => start
  | _ => false

/-- `Token::is_end_tag` (tokenizer.rs): `!self.is_start_tag()`. -/
def is_end_tag (t : Token) : Bool := !t.is_start_tag

/-- `Token::is_tag_with_name` (tokenizer.rs). -/
def is_tag_with_name (t : Token) (names : List String) : Bool :=
  match t with
  | .Tag _ tag_name _ => names.contains tag_name
  | _ => false

/-- `Token::is_start_tag_with_name` (tokenizer.rs). -/
def is_start_tag_with_name (t : Token) (names : List String) : Bool :=
  t.is_start_tag && t.is_tag_with_name names

/-- `Token::is_end_tag_with_name` (tokenizer.rs). -/
def is_end_tag_with_name (t : Token) (names : List String) : Bool :=
  t.is_end_tag && t.is_tag_with_name names

end Token

/-- Rust `char::to_ascii_lowercase`. -/
def asciiLower (c : Char) : Char :=
  if 'A' ≤ c ∧ c ≤ 'Z' then Char.ofNat (c.toNat + 32) else c

/-- Rust `char::eq_ignore_ascii_case`. -/
def eqIgnoreAsciiCase (a b : Char) : Bool := asciiLower a = asciiLower b

/-- `ascii_upper_alpha!()` (tokenizer.rs). -/
def isAsciiUpperAlpha (c : Char) : Bool := 'A' ≤ c ∧ c ≤ 'Z'

/-- `ascii_alpha!()` (tokenizer.rs). -/
def isAsciiAlpha (c : Char) : Bool := ('a' ≤ c ∧ c ≤ 'z') || isAsciiUpperAlpha c

/-- `whitespace!()` of the tokenizer (tokenizer.rs): tab, LF, FF, space. -/
def isTokWhitespace (c : Char) : Bool :=
  c = '\x09' || c = '\x0A' || c = '\x0C' || c = '\x20'

/-- `struct Tokenizer` (tokenizer.rs). -/
structure Tokenizer where
  html : List Char
  state : TState
  return_state : TState
  tokens : List Token
  current_token : Option Token
  insertion_point : Nat
deriving DecidableEq, Repr

namespace Tokenizer

/-- `Tokenizer::new` (tokenizer.rs). -/
def new (html : List Char) : Tokenizer :=
  { html := html, state := .Data, return_state := .Data, tokens := []
    current_token := none, insertion_point := 0 }

/-- `Tokenizer::peek` (tokenizer.rs): the last emitted token. -/
def peek (t : Tokenizer) : Option Token := t.tokens.getLast?

/-- `Tokenizer::current_input_character` (tokenizer.rs). -/
def current_input_character (t : Tokenizer) : Option Char :=
  t.html.get? t.insertion_point

/-- `Tokenizer::next_few_input_characters_are` (tokenizer.rs): zip the
remaining input with the word and compare componentwise (`Iterator::zip`
stops at the shorter sequence). -/
def next_few_input_characters_are (t : Tokenizer) (word : List Char)
    (case_sensitive : Bool) : Bool :=
  ((t.html.drop t.insertion_point).zip word).all fun ab =>
    if case_sensitive then ab.1 = ab.2 else eqIgnoreAsciiCase ab.1 ab.2

/-- `Tokenizer::switch_to` (tokenizer.rs). -/
def switch_to (t : Tokenizer) (s : TState) : Tokenizer := { t with state := s }

/-- `Tokenizer::set_return_state` (tokenizer.rs). -/
def set_return_state (t : Tokenizer) (s : TState) : Tokenizer :=
  { t with return_state := s }

/-- `Tokenizer::reconsume_in_state` (tokenizer.rs): `insertion_point -= 1`
then switch. Every use in the source follows a consume, so the cursor is
positive there; `Nat` subtraction stands in for the `usize` decrement. -/
def reconsume_in_state (t : Tokenizer) (s : TState) : Tokenizer :=
  { t with insertion_point := t.insertion_point - 1, state := s }

/-- `Tokenizer::set_current_token` (tokenizer.rs). -/
def set_current_token (t : Tokenizer) (tok : Token) : Tokenizer :=
  { t with current_token := some tok }

/-- `Tokenizer::consume_next_input_character` (tokenizer.rs). -/
def consume_next_input_character (t : Tokenizer) : Tokenizer × Option Char :=
  ({ t with insertion_point := t.insertion_point + 1 },
   t.current_input_character)

/-- `Tokenizer::consume_word` (tokenizer.rs): advance by `word.len()` (byte
length; equal to the scalar count for the ASCII words passed to it). -/
def consume_word (t : Tokenizer) (word : List Char) : Tokenizer :=
  { t with insertion_point := t.insertion_point + word.length }

/-- Append a scalar to the current tag token's tag name, when there is one
(`if let Some(Token::Tag { tag_name, .. }) = ...` in tokenizer.rs). -/
def push_tag_name (t : Tokenizer) (c : Char) : Tokenizer :=
  match t.current_token with
  | some (.Tag start name attrs) =>
      { t with current_token := some (.Tag start (name.push c) attrs) }
  | _ => t

/-- Start a new empty attribute on the current tag token (tokenizer.rs,
BeforeAttributeName anything-else arm). -/
def push_new_attribute (t : Tokenizer) : Tokenizer :=
  match t.current_token with
  | some (.Tag start name attrs) =>
      { t with
        current_token := some (.Tag start name (attrs ++ [{ name := "", value := "" }])) }
  | _ => t

/-- Append a scalar to the name of the current tag token's last attribute
(tokenizer.rs, AttributeName anything-else arm). -/
def push_attribute_name (t : Tokenizer) (c : Char) : Tokenizer :=
  match t.current_token with
  | some (.Tag start name attrs) =>
      match attrs.getLast? with
      | some a =>
          { t with
            current_token := some (.Tag start name (attrs.dropLast ++ [{ a with name := a.name.push c }])) }
      | none => t
  | _ => t

/-- Append a scalar to the value of the current tag token's last attribute
(tokenizer.rs, AttributeValueDoubleQuoted anything-else arm). -/
def push_attribute_value (t : Tokenizer) (c : Char) : Tokenizer :=
  match t.current_token with
  | some (.Tag start name attrs) =>
      match attrs.getLast? with
      | some a =>
          { t with
            current_token := some (.Tag start name (attrs.dropLast ++ [{ a with value := a.value.push c }])) }
      | none => t
  | _ => t

/-- Append a scalar to the current DOCTYPE token's name (tokenizer.rs,
DoctypeName arms). -/
def push_doctype_name (t : Tokenizer) (c : Char) : Tokenizer :=
  match t.current_token with
  | some (.Doctype name pubid sysid) =>
      { t with current_token := some (.Doctype (name.push c) pubid sysid) }
  | _ => t

/-- `emit_current_token!()` (tokenizer.rs): take the current token if any. -/
def take_current_token (t : Tokenizer) : Tokenizer × Option Token :=
  ({ t with current_token := none }, t.current_token)

/-- One iteration of the `while emitted_token.is_none()` loop inside
`Tokenizer::next` (tokenizer.rs). `todo!()` arms are panics. Returns the
updated tokenizer and the token emitted by this iteration, if any. -/
def step (t : Tokenizer) : Res (Tokenizer × Option Token) :=
  match t.state with
  | .Data =>
      let (t, c) := t.consume_next_input_character
      match c with
      | some '&' => Res.ok ((t.set_return_state .Data).switch_to .CharacterReference, none)
      | some '<' => Res.ok (t.switch_to .TagOpen, none)
      | some '\x00' => Res.panic
      | none => Res.ok (t, some .EndOfFile)
      | some c => Res.ok (t, some (.Character c))
  | .TagOpen =>
      let (t, c) := t.consume_next_input_character
      match c with
      | some '!' => Res.ok (t.switch_to .MarkupDeclarationOpen, none)
      | some '/' => Res.ok (t.switch_to .EndTagOpen, none)
      | some '?' => Res.panic
      | none => Res.panic
      | some c =>
          if isAsciiAlpha c then
            Res.ok ((t.set_current_token (.Tag true "" [])).reconsume_in_state .TagName, none)
          else
            Res.panic
  | .EndTagOpen =>
      let (t, c) := t.consume_next_input_character
      match c with
      | some '>' => Res.panic
      | none => Res.panic
      | some c =>
          if isAsciiAlpha c then
            Res.ok ((t.set_current_token (.Tag false "" [])).reconsume_in_state .TagName, none)
          else
            Res.panic
  | .TagName =>
      let (t, c) := t.consume_next_input_character
      match c with
      | none => Res.panic
      | some c =>
          if isTokWhitespace c then Res.ok (t.switch_to .BeforeAttributeName, none)
          else if c = '/' then Res.ok (t.switch_to .SelfClosingStartTag, none)
          else if c = '>' then
            let (t, tok) := (t.switch_to .Data).take_current_token
            Res.ok (t, tok)
          else if c = '\x00' then Res.panic
          else Res.ok (t.push_tag_name (asciiLower c), none)
  | .BeforeAttributeName =>
      let (t, c) := t.consume_next_input_character
      match c with
      | none => Res.ok (t.reconsume_in_state .AfterAttributeName, none)
      | some c =>
          if isTokWhitespace c then Res.ok (t, none)
          else if c = '/' || c = '<' then
            Res.ok (t.reconsume_in_state .AfterAttributeName, none)
          else if c = '=' then Res.panic
          else Res.ok (t.push_new_attribute.reconsume_in_state .AttributeName, none)
  | .AttributeName =>
      let (t, c) := t.consume_next_input_character
      match c with
      | none => Res.ok (t.reconsume_in_state .AfterAttributeName, none)
      | some c =>
          if isTokWhitespace c || c = '/' || c = '>' then
            Res.ok (t.reconsume_in_state .AfterAttributeName, none)
          else if c = '=' then Res.ok (t.switch_to .BeforeAttributeValue, none)
          else if c = '\x00' then Res.panic
          else if c = '"' || c = '\'' || c = '<' then Res.panic
          else Res.ok (t.push_attribute_name c, none)
  | .BeforeAttributeValue =>
      let (t, c) := t.consume_next_input_character
      match c with
      | none => Res.ok (t.reconsume_in_state .AttributeValueUnquoted, none)
      | some c =>
          if isTokWhitespace c then Res.ok (t, none)
          else if c = '"' then Res.ok (t.switch_to .AttributeValueDoubleQuoted, none)
          else if c = '\'' then Res.ok (t.switch_to .AttributeValueSingleQuoted, none)
          else if c = '>' then Res.panic
          else Res.ok (t.reconsume_in_state .AttributeValueUnquoted, none)
  | .AttributeValueDoubleQuoted =>
      let (t, c) := t.consume_next_input_character
      match c with
      | none => Res.panic
      | some c =>
          if c = '"' then Res.ok (t.switch_to .AfterAttributeValueQuoted, none)
          else if c = '&' then
            Res.ok ((t.set_return_state .AttributeValueDoubleQuoted).switch_to
              .CharacterReference, none)
          else if c = '\x00' then Res.panic
          else Res.ok (t.push_attribute_value c, none)
  | .AfterAttributeValueQuoted =>
      let (t, c) := t.consume_next_input_character
      match c with
      | none => Res.panic
      | some c =>
          if isTokWhitespace c then Res.ok (t.switch_to .BeforeAttributeName, none)
          else if c = '/' then Res.ok (t.switch_to .SelfClosingStartTag, none)
          else if c = '>' then
            let (t, tok) := (t.switch_to .Data).take_current_token
            Res.ok (t, tok)
          else Res.panic
  | .MarkupDeclarationOpen =>
      if t.next_few_input_characters_are ['-', '-'] false then
        let t := t.consume_word ['-', '-']
        Res.ok ((t.set_current_token (.Comment "")).switch_to .CommentStart, none)
      else if t.next_few_input_characters_are
          ['D', 'O', 'C', 'T', 'Y', 'P', 'E'] true then
        let t := t.consume_word ['D', 'O', 'C', 'T', 'Y', 'P', 'E']
        Res.ok (t.switch_to .Doctype, none)
      else
        -- Neither prefix matches: no arm of the `if` chain fires, so the
        -- state machine makes no progress at all on this iteration.
        Res.ok (t, none)
  | .Doctype =>
      let (t, c) := t.consume_next_input_character
      match c with
      | none => Res.panic
      | some c =>
          if isTokWhitespace c then Res.ok (t.switch_to .BeforeDoctypeName, none)
          else if c = '>' then Res.ok (t.reconsume_in_state .BeforeDoctypeName, none)
          else Res.panic
  | .BeforeDoctypeName =>
      let (t, c) := t.consume_next_input_character
      match c with
      | none => Res.panic
      | some c =>
          if isTokWhitespace c then Res.ok (t, none)
          else if isAsciiUpperAlpha c then
            -- The source reads `current_input_character()` here, i.e. the
            -- scalar *after* the consumed one, and unwraps it.
            match t.current_input_character with
            | none => Res.panic
            | some d =>
                Res.ok ((t.set_current_token
                  (.Doctype (String.singleton (asciiLower d)) none none)).switch_to
                  .DoctypeName, none)
          else if c = '\x00' then Res.panic
          else if c = '>' then Res.panic
          else
            Res.ok ((t.set_current_token
              (.Doctype (String.singleton c) none none)).switch_to .DoctypeName, none)
  | .DoctypeName =>
      let (t, c) := t.consume_next_input_character
      match c with
      | none => Res.panic
      | some c =>
          if isTokWhitespace c then Res.ok (t.switch_to .AfterDoctypeName, none)
          else if c = '>' then
            let (t, tok) := (t.switch_to .Data).take_current_token
            Res.ok (t, tok)
          else if isAsciiUpperAlpha c then
            -- Again reads (and unwraps) the scalar after the consumed one.
            match t.current_input_character with
            | none => Res.panic
            | some d => Res.ok (t.push_doctype_name (asciiLower d), none)
          else if c = '\x00' then Res.panic
          else Res.ok (t.push_doctype_name c, none)
  | .AfterDoctypeName =>
      let (t, c) := t.consume_next_input_character
      match c with
      | none => Res.panic
      | some c =>
          if isTokWhitespace c then Res.ok (t, none)
          else if c = '>' then
            let (t, tok) := (t.switch_to .Data).take_current_token
            Res.ok (t, tok)
          else Res.panic
  | _ => Res.panic

/-- `Tokenizer::next` (tokenizer.rs): iterate `step` until a token is
emitted, push it onto `tokens`, and return `peek().cloned()`. The `while`
loop takes fuel; a genuinely non-terminating run answers `timeout` for
every fuel. -/
def next : Nat → Tokenizer → Res (Tokenizer × Option Token)
  | 0, _ => Res.timeout
  | fuel + 1, t =>
      match t.step with
      | .panic => .panic
      | .timeout => .timeout
      | .ok (t, some tok) =>
          let t := { t with tokens := t.tokens ++ [tok] }
          Res.ok (t, t.peek)
      | .ok (t, none) => next fuel t

end Tokenizer

/-! ## Tree constructor — src/components/zaailing/src/parser.rs

The zaailing crate's `parser.rs` is embedded against the node/arena model
above (the zaailing copies of node.rs/arena.rs are not in the snapshot;
the dom copies are, and the parser uses exactly their interface). -/

/-- `Namespace::url` (parser.rs). -/
def htmlNamespaceUrl : String := "http://www.w3.org/1999/xhtml"

/-- `SPECIAL_TAGS` (parser.rs). -/
def SPECIAL_TAGS : List String :=
  ["address", "applet", "area", "article", "aside", "base", "basefont",
   "bgsound", "blockquote", "body", "br", "button", "caption", "center",
   "col", "colgroup", "dd", "details", "dir", "div", "dl", "dt", "embed",
   "fieldset", "figcaption", "figure", "footer", "form", "frame",
   "frameset", "h1", "h2", "h3", "h4", "h5", "h6", "head", "header",
   "hgroup", "hr", "html", "iframe", "img", "input", "keygen", "li",
   "link", "listing", "main", "marquee", "menu", "meta", "nav", "noembed",
   "noframes", "noscript", "object", "ol", "p", "param", "plaintext",
   "pre", "script", "search", "section", "select", "source", "style",
   "summary", "table", "tbody", "td", "template", "textarea", "tfoot",
   "th", "thead", "title", "tr", "track", "ul", "wbr", "xmp"]

/-- `BASE_SCOPE_TAGS` (parser.rs). -/
def BASE_SCOPE_TAGS : List String :=
  ["applet", "caption", "html", "table", "td", "th", "marquee", "object",
   "template", "mi", "mo", "mn", "ms", "mtext", "annotation-xml",
   "foreignObject", "desc", "title"]

/-! `StackOfOpenElements` (parser.rs) stores its elements in a `Vec` whose
*last* entry is the top of the stack. It is embedded as a `List NodeId`
whose *head* is the top of the stack (the list is the reverse of the Vec),
so pushing and popping are `cons` and `tail` and the frequent top-to-bottom
`iter().rev()` walks of the source are plain traversals. Operations the
source performs in Vec order (first match from the bottom) reverse the list
first. -/
namespace Stack

/-- `StackOfOpenElements::is_empty`. -/
def is_empty (l : List NodeId) : Bool := l.isEmpty

/-- `StackOfOpenElements::contains`. -/
def contains (l : List NodeId) (node : NodeId) : Bool := l.contains node

/-- `StackOfOpenElements::current_node`: top of the stack; `expect` panics
on an empty stack. -/
def current_node (l : List NodeId) : Res NodeId := unwrapO l.head?

/-- `StackOfOpenElements::adjusted_current_node` (fragment parsing not
implemented; always the current node). -/
def adjusted_current_node (l : List NodeId) : Res NodeId := current_node l

/-- `StackOfOpenElements::push`. -/
def push (l : List NodeId) (e : NodeId) : List NodeId := e :: l

/-- `StackOfOpenElements::pop`. -/
def pop (l : List NodeId) : List NodeId × Option NodeId :=
  match l with
  | [] => ([], none)
  | e :: es => (es, some e)

/-- `StackOfOpenElements::pop_until_element_with_tag_name`: pop until (and
including) an element with the tag name; pops the whole stack when none
matches. -/
def pop_until_element_with_tag_name (arena : NodeArena) (tag : String) :
    List NodeId → Res (List NodeId)
  | [] => Res.ok []
  | e :: es => do
      let n ← arena.get_node e
      if n.is_element_with_tag_name tag then Res.ok es
      else pop_until_element_with_tag_name arena tag es

/-- `StackOfOpenElements::has_element_in_specific_scope`: walk from the top;
target tag → true, scope-stopper tag → false; running off the bottom is
`unreachable!()` (panic). -/
def has_element_in_specific_scope (arena : NodeArena) (target : String)
    (tags : List String) : List NodeId → Res Bool
  | [] => Res.panic
  | e :: es => do
      let n ← arena.get_node e
      if n.is_element_with_tag_name target then Res.ok true
      else if tags.any (fun tag => n.is_element_with_tag_name tag) then Res.ok false
      else has_element_in_specific_scope arena target tags es

/-- `StackOfOpenElements::has_element_in_scope`. -/
def has_element_in_scope (arena : NodeArena) (element : String)
    (l : List NodeId) : Res Bool :=
  has_element_in_specific_scope arena element BASE_SCOPE_TAGS l

/-- `StackOfOpenElements::has_element_in_button_scope`. -/
def has_element_in_button_scope (arena : NodeArena) (element : String)
    (l : List NodeId) : Res Bool :=
  has_element_in_specific_scope arena element (BASE_SCOPE_TAGS ++ ["button"]) l

/-- `StackOfOpenElements::element_immediately_above`: the entry one step
toward the bottom from (the topmost occurrence of) `target`, skipping
entries equal to `target` itself. -/
def element_immediately_above (l : List NodeId) (target : NodeId) :
    Option NodeId :=
  let rec found : List NodeId → Option NodeId
    | [] => none
    | e :: es => if e = target then found es else some e
  let rec seek : List NodeId → Option NodeId
    | [] => none
    | e :: es => if e = target then found es else seek es
  seek l

/-- `StackOfOpenElements::topmost_special_node_below`: walk from the top,
stopping at `target`; the last special element recorded before stopping is
the one nearest `target`. -/
def topmost_special_node_below (arena : NodeArena) (target : NodeId) :
    List NodeId → Option NodeId → Res (Option NodeId)
  | [], best => Res.ok best
  | e :: es, best => do
      if e = target then Res.ok best
      else do
        let n ← arena.get_node e
        if n.is_element_with_one_of_tag_names SPECIAL_TAGS then
          topmost_special_node_below arena target es (some e)
        else
          topmost_special_node_below arena target es best

/-- `StackOfOpenElements::insert_immediately_below`: Vec-order first
occurrence of `target`, insert the element one slot later (one step toward
the top); no-op when absent. -/
def insert_immediately_below (l : List NodeId) (element target : NodeId) :
    List NodeId :=
  let v := l.reverse
  match v.indexOf? target with
  | some i => (v.insertIdx (i + 1) element).reverse
  | none => l

/-- `StackOfOpenElements::replace`: Vec-order first occurrence. -/
def replace (l : List NodeId) (target replacement : NodeId) : List NodeId :=
  let v := l.reverse
  match v.indexOf? target with
  | some i => (v.set i replacement).reverse
  | none => l

/-- `StackOfOpenElements::remove_element`: Vec-order first occurrence. -/
def remove_element (l : List NodeId) (element : NodeId) : List NodeId :=
  let v := l.reverse
  match v.indexOf? element with
  | some i => (v.eraseIdx i).reverse
  | none => l

end Stack

/-- `enum ActiveFormattingElement` (parser.rs). -/
inductive ActiveFormattingElement where
  | Marker : ActiveFormattingElement
  | Element (id : NodeId) : ActiveFormattingElement
deriving DecidableEq, Repr

/-! `ActiveFormattingElements` (parser.rs): embedded as a list in Vec order
(head = oldest entry), since its operations are index-based from the
front. -/
namespace Afe

/-- `ActiveFormattingElements::push`. -/
def push (l : List ActiveFormattingElement) (e : ActiveFormattingElement) :
    List ActiveFormattingElement := l ++ [e]

/-- `ActiveFormattingElements::contains`. -/
def contains (l : List ActiveFormattingElement) (target : NodeId) : Bool :=
  l.any fun e =>
    match e with
    | .Element id => id = target
    | .Marker => false

/-- `ActiveFormattingElements::first_index_of`. -/
def first_index_of (l : List ActiveFormattingElement) (target : NodeId) :
    Option Nat :=
  l.findIdx? (fun e => e = .Element target)

/-- `ActiveFormattingElements::replace`. -/
def replace (l : List ActiveFormattingElement) (target replacement : NodeId) :
    List ActiveFormattingElement :=
  match first_index_of l target with
  | some i => l.set i (.Element replacement)
  | none => l

/-- `ActiveFormattingElements::insert`. -/
def insert (l : List ActiveFormattingElement) (index : Nat) (element : NodeId) :
    List ActiveFormattingElement :=
  l.insertIdx index (.Element element)

/-- `ActiveFormattingElements::remove`. -/
def remove (l : List ActiveFormattingElement) (element : NodeId) :
    List ActiveFormattingElement :=
  match first_index_of l element with
  | some i => l.eraseIdx i
  | none => l

/-- `ActiveFormattingElements::last_element_with_tag_name_before_marker`:
walk from the most recent entry; stop at a marker. -/
def last_element_with_tag_name_before_marker (arena : NodeArena)
    (tag : String) (l : List ActiveFormattingElement) : Res (Option NodeId) :=
  go arena tag l.reverse
where
  go (arena : NodeArena) (tag : String) :
      List ActiveFormattingElement → Res (Option NodeId)
    | [] => Res.ok none
    | .Marker :: _ => Res.ok none
    | .Element id :: rest => do
        let n ← arena.get_node id
        if n.is_element_with_tag_name tag then Res.ok (some id)
        else go arena tag rest

/-- `ActiveFormattingElements::reconstruct`: nothing to do when the list is
empty, ends in a marker, or ends in an element already on the stack of open
elements; any other case is `todo!()` (panic). -/
def reconstruct (l : List ActiveFormattingElement)
    (open_elements : List NodeId) : Res (List ActiveFormattingElement) :=
  match l.getLast? with
  | none => Res.ok l
  | some .Marker => Res.ok l
  | some (.Element element) =>
      if Stack.contains open_elements element then Res.ok l
      else Res.panic

end Afe

/-- `enum InsertionMode` (parser.rs). -/
inductive InsertionMode where
  | Initial | BeforeHtml | BeforeHead | InHead | InHeadNoScript | AfterHead
  | InBody | Text | InTable | InTableText | InCaption | InColumnGroup
  | InTableBody | InRow | InCell | InSelect | InSelectInTable | InTemplate
  | AfterBody | InFrameset | AfterFrameset | AfterAfterBody
  | AfterAfterFrameset
deriving DecidableEq, Repr

/-- `struct InsertionLocation` (parser.rs). -/
structure InsertionLocation where
  parent : NodeId
  after_child : Option NodeId
deriving DecidableEq, Repr

/-- `InsertionLocation::insert_element` (parser.rs). -/
def InsertionLocation.insert_element (loc : InsertionLocation)
    (arena : NodeArena) (element : NodeId) : Res NodeArena :=
  arena.insert element loc.parent loc.after_child

/-- `enum ParsingAlgorithm` (parser.rs). -/
inductive ParsingAlgorithm where
  | RawText | RcData
deriving DecidableEq, Repr

/-- `whitespace!()` of the tree constructor (parser.rs): tab, LF, FF, CR,
space character tokens. -/
def Token.isParserWhitespace (t : Token) : Bool :=
  match t with
  | .Character c =>
      c = '\x09' || c = '\x0A' || c = '\x0C' || c = '\x0D' || c = '\x20'
  | _ => false

/-- Whether the token is a `Token::Tag` (used for Rust arms whose pattern is
`Token::Tag { .. }` with a guard). -/
def Token.isTag (t : Token) : Bool :=
  match t with
  | .Tag _ _ _ => true
  | _ => false

/-- `struct Parser` (parser.rs). The stderr parse-error sink (`eprintln!`
in `Parser::error`) is modeled as an accumulating list of messages. -/
structure Parser where
  arena : NodeArena
  tokenizer : Tokenizer
  insertion_mode : InsertionMode
  original_insertion_mode : InsertionMode
  should_reprocess_token : Bool
  document : NodeId
  open_elements : List NodeId
  active_formatting_elements : List ActiveFormattingElement
  head_element : Option NodeId
  should_stop_parsing : Bool
  scripting : Bool
  frameset_ok : Bool
  foster_parenting : Bool
  errors : List String
deriving DecidableEq, Repr

namespace Parser

/-- `Parser::new` (parser.rs). -/
def new (html : List Char) : Parser :=
  let (arena, document) := NodeArena.new.create_node Node.create_document
  { arena := arena
    tokenizer := Tokenizer.new html
    insertion_mode := .Initial
    original_insertion_mode := .Initial
    should_reprocess_token := false
    document := document
    open_elements := []
    active_formatting_elements := []
    head_element := none
    should_stop_parsing := false
    scripting := false
    frameset_ok := true
    foster_parenting := false
    errors := [] }

/-- `Parser::error` (parser.rs): deliver a message to the error sink. -/
def error (p : Parser) (message : String) : Parser :=
  { p with errors := p.errors ++ [message] }

/-- `Parser::stop_parsing` (parser.rs). -/
def stop_parsing (p : Parser) : Parser := { p with should_stop_parsing := true }

/-- `Parser::switch_insertion_mode` (parser.rs). -/
def switch_insertion_mode (p : Parser) (m : InsertionMode) : Parser :=
  { p with insertion_mode := m }

/-- `Parser::switch_insertion_mode_and_reprocess_token` (parser.rs). -/
def switch_insertion_mode_and_reprocess_token (p : Parser)
    (m : InsertionMode) : Parser :=
  { p with should_reprocess_token := true, insertion_mode := m }

/-- `Parser::is_in_foreign_content` (parser.rs). -/
def is_in_foreign_content (p : Parser) (token : Token) : Res Bool := do
  if Stack.is_empty p.open_elements then Res.ok false
  else do
    let acnId ← Stack.adjusted_current_node p.open_elements
    let acn ← p.arena.get_node acnId
    if acn.is_element_in_namespace htmlNamespaceUrl then Res.ok false
    else if token = .EndOfFile then Res.ok false
    else Res.ok true

/-- `Parser::appropriate_place_for_inserting_node` (parser.rs): the current
node (or the override target), appended inside it; foster parenting is
`todo!()` (panic). -/
def appropriate_place_for_inserting_node (p : Parser)
    (override_target : Option NodeId) : Res InsertionLocation := do
  let target ← match override_target with
    | some override_target => Res.ok override_target
    | none => Stack.current_node p.open_elements
  if p.foster_parenting then Res.panic
  else Res.ok { parent := target, after_child := none }

/-- `Parser::create_element_for_token` (parser.rs): document taken from the
intended parent's node document; panics on a non-tag token; attribute
copying is still a TODO in the source. -/
def create_element_for_token (p : Parser) (token : Token)
    (namespace_url : String) (intended_parent : NodeId) :
    Res (Parser × NodeId) := do
  let parentNode ← p.arena.get_node intended_parent
  let document ← p.arena.node_document parentNode
  let local_name ← match token with
    | .Tag _ tag_name _ => Res.ok tag_name
    | _ => Res.panic
  let element := Node.create_element document local_name namespace_url none
  let (arena, id) := p.arena.create_node element
  Res.ok ({ p with arena := arena }, id)

/-- `Parser::insert_foreign_element` (parser.rs). -/
def insert_foreign_element (p : Parser) (token : Token)
    (namespace_url : String) (only_add_to_element_stack : Bool) :
    Res (Parser × NodeId) := do
  let loc ← p.appropriate_place_for_inserting_node none
  let (p, element) ← p.create_element_for_token token namespace_url loc.parent
  let p ←
    if !only_add_to_element_stack then do
      let arena ← loc.insert_element p.arena element
      Res.ok { p with arena := arena }
    else Res.ok p
  Res.ok ({ p with open_elements := Stack.push p.open_elements element }, element)

/-- `Parser::insert_html_element` (parser.rs). -/
def insert_html_element (p : Parser) (token : Token) : Res (Parser × NodeId) :=
  p.insert_foreign_element token htmlNamespaceUrl false

/-- `Parser::insert_character` (parser.rs). -/
def insert_character (p : Parser) (data : Char) : Res Parser := do
  let loc ← p.appropriate_place_for_inserting_node none
  let parentNode ← p.arena.get_node loc.parent
  if parentNode.is_document then Res.ok p
  else do
    -- Append to a Text node immediately before the location when present,
    -- otherwise fall through and create a fresh Text node.
    let appended : Option Parser ←
      match loc.after_child with
      | some after => do
          let prev ← p.arena.previous_sibling after
          match prev with
          | some previous_sibling => do
              let n ← p.arena.get_node previous_sibling
              match n.kind with
              | .text txt =>
                  let arena := p.arena.set_node previous_sibling { n with kind := .text (txt.push data) }
                  Res.ok (some { p with arena := arena })
              | _ => Res.ok none
          | none => Res.ok none
      | none =>
          match parentNode.children.getLast? with
          | some last_child => do
              let n ← p.arena.get_node last_child
              match n.kind with
              | .text txt =>
                  let arena := p.arena.set_node last_child { n with kind := .text (txt.push data) }
                  Res.ok (some { p with arena := arena })
              | _ => Res.ok none
          | none => Res.ok none
    match appended with
    | some p => Res.ok p
    | none => do
        let document ← p.arena.node_document parentNode
        let text_node := Node.create_text document (String.singleton data)
        let (arena, text_node_id) := p.arena.create_node text_node
        let arena ← loc.insert_element arena text_node_id
        Res.ok { p with arena := arena }

/-- `Parser::generate_implied_end_tags_except_for` (parser.rs): pop while
the current node is one of the implied-end-tag elements other than the
exception; reading the current node of an empty stack panics (`expect`). -/
def generate_implied_end_tags_except_for (arena : NodeArena) (except : String) :
    List NodeId → Res (List NodeId)
  | [] => Res.panic
  | e :: es => do
      let node ← arena.get_node e
      if node.is_element_with_tag_name except then Res.ok (e :: es)
      else if !node.is_element_with_one_of_tag_names
          ["dd", "dt", "li", "optgroup", "option", "p", "rb", "rp", "rt", "rtc"] then
        Res.ok (e :: es)
      else
        generate_implied_end_tags_except_for arena except es

/-- `Parser::close_p_element` (parser.rs). -/
def close_p_element (p : Parser) : Res Parser := do
  let stack ← generate_implied_end_tags_except_for p.arena "p" p.open_elements
  let p := { p with open_elements := stack }
  let cur ← Stack.current_node p.open_elements
  let n ← p.arena.get_node cur
  let p :=
    if !n.is_element_with_tag_name "p" then
      p.error "Expected current node to be a p element while closing a p element"
    else p
  let stack ← Stack.pop_until_element_with_tag_name p.arena "p" p.open_elements
  Res.ok { p with open_elements := stack }

/-- `Parser::follow_generic_parsing_algorithm` (parser.rs). -/
def follow_generic_parsing_algorithm (p : Parser) (token : Token)
    (algorithm : ParsingAlgorithm) : Res Parser := do
  let (p, _) ← p.insert_html_element token
  let p :=
    match algorithm with
    | .RawText => { p with tokenizer := p.tokenizer.switch_to .RawText }
    | .RcData => { p with tokenizer := p.tokenizer.switch_to .RcData }
  let p := { p with original_insertion_mode := p.insertion_mode }
  Res.ok (p.switch_insertion_mode .Text)

end Parser

namespace Parser

/-- The pop sequence of the no-furthest-block branch of the adoption agency
algorithm (parser.rs): `while formatting_element != current_node() { pop }`
then one more `pop`; `current_node` of an empty stack panics. -/
def pop_through (fe : NodeId) : List NodeId → Res (List NodeId)
  | [] => Res.panic
  | e :: es => if e = fe then Res.ok es else pop_through fe es

/-- The inner (`While true`) loop of `Parser::run_adoption_agency_algorithm`
(parser.rs). `node_above_node` is computed once, *before* the loop, in the
source; it is therefore a fixed parameter here. Returns the parser, the
final `last_node` and the bookmark at the `break`. -/
def adoption_inner (token : Token) (fe fb : NodeId)
    (common_ancestor node_above_node : Option NodeId) :
    Nat → Parser → NodeId → NodeId → Nat → Nat →
    Res (Parser × NodeId × Nat)
  | 0, _, _, _, _, _ => Res.timeout
  | fuel + 1, p, node, last_node, bookmark, inner_loop_count => do
      let inner_loop_count := inner_loop_count + 1
      let node := match node_above_node with
        | some node_above_node => node_above_node
        | none => node
      if node = fe then Res.ok (p, last_node, bookmark)
      else
        let p :=
          if inner_loop_count > 3 && Afe.contains p.active_formatting_elements node then
            { p with active_formatting_elements := Afe.remove p.active_formatting_elements node }
          else p
        if !(Afe.contains p.active_formatting_elements node) then
          let p := { p with open_elements := Stack.remove_element p.open_elements node }
          adoption_inner token fe fb common_ancestor node_above_node fuel
            p node last_node bookmark inner_loop_count
        else do
          let ca ← unwrapO common_ancestor
          let (p, new_element) ← p.create_element_for_token token htmlNamespaceUrl ca
          let p := { p with
            active_formatting_elements := Afe.replace p.active_formatting_elements node new_element
            open_elements := Stack.replace p.open_elements node new_element }
          let node := new_element
          let bookmark ←
            if last_node = fb then do
              let i ← unwrapO (Afe.first_index_of p.active_formatting_elements node)
              Res.ok (i + 1)
            else Res.ok bookmark
          let (arena, _) ← p.arena.append last_node node
          let p := { p with arena := arena }
          adoption_inner token fe fb common_ancestor node_above_node fuel
            p node node bookmark inner_loop_count

/-- The outer (`While true`) loop of
`Parser::run_adoption_agency_algorithm` (parser.rs). `remaining` counts the
outer iterations still permitted (the source keeps `outer_loop_counter` and
returns once it reaches 8); `inner_fuel` bounds the embedded inner loop. -/
def adoption_outer (token : Token) (subject : String) (inner_fuel : Nat) :
    Nat → Parser → Res Parser
  | 0, p => Res.ok p
  | remaining + 1, p => do
      let feOpt ← Afe.last_element_with_tag_name_before_marker p.arena subject
        p.active_formatting_elements
      match feOpt with
      | none => Res.panic
      | some formatting_element =>
          if !(Stack.contains p.open_elements formatting_element) then
            let p := p.error "Formatting element not in the stack of open elements"
            Res.ok { p with
              active_formatting_elements := Afe.remove p.active_formatting_elements formatting_element }
          else do
            let feNode ← p.arena.get_node formatting_element
            let fe_tag ← match feNode.kind with
              | .element _ _ _ tag_name => Res.ok tag_name
              | _ => Res.panic
            let in_scope ← Stack.has_element_in_scope p.arena fe_tag p.open_elements
            if !in_scope then
              Res.ok (p.error "Formatting element is not in scope")
            else do
              let cur ← Stack.current_node p.open_elements
              let p :=
                if formatting_element ≠ cur then
                  p.error "Formatting element is not the current node"
                else p
              let fbOpt ← Stack.topmost_special_node_below p.arena formatting_element
                p.open_elements none
              match fbOpt with
              | none => do
                  let stack ← pop_through formatting_element p.open_elements
                  let afe := Afe.remove p.active_formatting_elements formatting_element
                  Res.ok { p with open_elements := stack, active_formatting_elements := afe }
              | some furthest_block => do
                  let common_ancestor :=
                    Stack.element_immediately_above p.open_elements formatting_element
                  let bookmark ← unwrapO
                    (Afe.first_index_of p.active_formatting_elements formatting_element)
                  let node_above_node :=
                    Stack.element_immediately_above p.open_elements furthest_block
                  let (p, last_node, bookmark) ← adoption_inner token
                    formatting_element furthest_block common_ancestor node_above_node
                    inner_fuel p furthest_block furthest_block bookmark 0
                  let loc ← p.appropriate_place_for_inserting_node common_ancestor
                  let arena ← p.arena.insert last_node loc.parent loc.after_child
                  let p := { p with arena := arena }
                  let (p, new_element) ← p.create_element_for_token token
                    htmlNamespaceUrl furthest_block
                  let fbNode ← p.arena.get_node furthest_block
                  let arena ← fbNode.children.foldlM (fun acc child => do
                      let (acc, _) ← NodeArena.append acc child new_element
                      Res.ok acc) p.arena
                  let (arena, _) ← arena.append new_element furthest_block
                  let p := { p with arena := arena }
                  let afe := Afe.remove p.active_formatting_elements formatting_element
                  let afe := Afe.insert afe bookmark new_element
                  let stack := Stack.remove_element p.open_elements formatting_element
                  let stack := Stack.insert_immediately_below stack new_element furthest_block
                  let p := { p with
                    active_formatting_elements := afe, open_elements := stack }
                  adoption_outer token subject inner_fuel remaining p

/-- `Parser::run_adoption_agency_algorithm` (parser.rs). `inner_fuel`
bounds the inner loop, whose source has no iteration cap. -/
def run_adoption_agency_algorithm (inner_fuel : Nat) (p : Parser)
    (token : Token) : Res Parser := do
  let subject ← match token with
    | .Tag _ tag_name _ => Res.ok tag_name
    | _ => Res.panic
  let current_node ← Stack.current_node p.open_elements
  let cn ← p.arena.get_node current_node
  if cn.is_element_with_tag_name subject &&
      !(Afe.contains p.active_formatting_elements current_node) then
    Res.ok { p with open_elements := (Stack.pop p.open_elements).1 }
  else
    adoption_outer token subject inner_fuel 8 p

/-- `Parser::process_token` (parser.rs). The `fuel` bounds the cross-mode
recursion (`process_token(OtherMode, token)` calls) and seeds the adoption
agency's inner loop; `todo!()`/`unreachable!()` arms are panics. -/
def process_token : Nat → Parser → InsertionMode → Token → Res Parser
  | 0, _, _, _ => Res.timeout
  | fuel + 1, p, mode, token =>
    match mode with
    | .Initial =>
        if token.isParserWhitespace then Res.ok p
        else
          match token with
          | .Comment _ => Res.panic
          | .Doctype name public_identifier system_identifier => do
              let p :=
                if name ≠ "html" || public_identifier.isSome ||
                    (system_identifier.isSome &&
                      system_identifier ≠ some "about:legacy-compat") then
                  p.error "Invalid DOCTYPE"
                else p
              let doctype := Node.create_doctype p.document name
                (public_identifier.getD "") (system_identifier.getD "")
              let (arena, doctypeId) := p.arena.create_node doctype
              let (arena, _) ← arena.append doctypeId p.document
              Res.ok (({ p with arena := arena }).switch_insertion_mode .BeforeHtml)
          | _ => Res.ok (p.switch_insertion_mode_and_reprocess_token .BeforeHtml)
    | .BeforeHtml =>
        match token with
        | .Doctype _ _ _ => Res.ok (p.error "Unexpected DOCTYPE")
        | .Comment _ => Res.panic
        | _ =>
            if token.isParserWhitespace then Res.ok p
            else if token.is_start_tag_with_name ["html"] then do
              let (p, html_element) ← p.create_element_for_token token
                htmlNamespaceUrl p.document
              let (arena, _) ← p.arena.append html_element p.document
              let p := { p with arena := arena }
              let p := { p with open_elements := Stack.push p.open_elements html_element }
              Res.ok (p.switch_insertion_mode .BeforeHead)
            else if token.is_end_tag_with_name ["head", "body", "html", "br"] then
              Res.panic
            else if token.isTag && token.is_end_tag then
              Res.ok (p.error "Unexpected end tag")
            else
              Res.ok (p.switch_insertion_mode_and_reprocess_token .BeforeHead)
    | .BeforeHead =>
        if token.isParserWhitespace then Res.ok p
        else
          match token with
          | .Comment _ => Res.panic
          | .Doctype _ _ _ => Res.ok (p.error "Unexpected DOCTYPE")
          | _ =>
              if token.is_start_tag_with_name ["html"] then
                process_token fuel p .InBody token
              else if token.is_start_tag_with_name ["head"] then do
                let (p, head) ← p.insert_html_element token
                let p := { p with head_element := some head }
                Res.ok (p.switch_insertion_mode .InHead)
              else if token.is_end_tag_with_name ["head", "body", "html", "br"] then
                Res.panic
              else if token.isTag && token.is_end_tag then
                Res.ok (p.error "Unexpected end tag")
              else Res.panic
    | .InHead =>
        if token.isParserWhitespace then
          match token with
          | .Character character => p.insert_character character
          | _ => Res.panic
        else
          match token with
          | .Comment _ => Res.panic
          | .Doctype _ _ _ => Res.ok (p.error "Unexpected DOCTYPE")
          | _ =>
              if token.is_start_tag_with_name ["html"] then
                process_token fuel p .InBody token
              else if token.is_start_tag_with_name
                  ["base", "basefont", "bgsound", "link"] then do
                let (p, _) ← p.insert_html_element token
                Res.ok { p with open_elements := (Stack.pop p.open_elements).1 }
              else if token.is_start_tag_with_name ["meta"] then do
                let (p, _) ← p.insert_html_element token
                Res.ok { p with open_elements := (Stack.pop p.open_elements).1 }
              else if token.is_start_tag_with_name ["title"] then
                p.follow_generic_parsing_algorithm token .RcData
              else if (token.is_start_tag_with_name ["noscript"] && p.scripting) ||
                  token.is_start_tag_with_name ["noframes", "style"] then
                p.follow_generic_parsing_algorithm token .RawText
              else if token.is_start_tag_with_name ["script"] then Res.panic
              else if token.is_end_tag_with_name ["head"] then
                let p := { p with open_elements := (Stack.pop p.open_elements).1 }
                Res.ok (p.switch_insertion_mode .AfterHead)
              else if token.is_end_tag_with_name ["body", "html", "br"] then
                Res.panic
              else if token.is_start_tag_with_name ["template"] then Res.panic
              else if token.is_end_tag_with_name ["template"] then Res.panic
              else if token.is_start_tag_with_name ["head"] ||
                  (token.isTag && token.is_end_tag) then
                Res.ok (p.error "Unexpected tag")
              else
                Res.ok (p.switch_insertion_mode_and_reprocess_token .AfterHead)
    | .InHeadNoScript => Res.panic
    | .AfterHead =>
        if token.isParserWhitespace then
          match token with
          | .Character character => p.insert_character character
          | _ => Res.panic
        else
          match token with
          | .Comment _ => Res.panic
          | .Doctype _ _ _ => Res.ok (p.error "Unexpected DOCTYPE")
          | _ =>
              if token.is_start_tag_with_name ["html"] then
                process_token fuel p .InBody token
              else if token.is_start_tag_with_name ["body"] then do
                let (p, _) ← p.insert_html_element token
                let p := { p with frameset_ok := false }
                Res.ok (p.switch_insertion_mode .InBody)
              else if token.is_start_tag_with_name ["frameset"] then do
                let (p, _) ← p.insert_html_element token
                Res.ok (p.switch_insertion_mode .InFrameset)
              else if token.is_start_tag_with_name
                  ["base", "basefont", "bgsound", "link", "meta", "noframes",
                   "script", "style", "template", "title"] then
                Res.panic
              else if token.is_end_tag_with_name ["template"] then
                process_token fuel p .InHead token
              else if token.is_end_tag_with_name ["body", "html", "br"] then
                Res.panic
              else if token.is_start_tag_with_name ["head"] ||
                  (token.isTag && token.is_end_tag) then
                Res.ok (p.error "Unexpected tag")
              else do
                let (p, _) ← p.insert_html_element (.Tag true "body" [])
                Res.ok (p.switch_insertion_mode_and_reprocess_token .InBody)
    | .InBody =>
        if token = .Character '\x00' then
          Res.ok (p.error "Unexpected null character")
        else if token.isParserWhitespace then do
          let afe ← Afe.reconstruct p.active_formatting_elements p.open_elements
          let p := { p with active_formatting_elements := afe }
          match token with
          | .Character character => p.insert_character character
          | _ => Res.panic
        else
          match token with
          | .Character character => do
              let afe ← Afe.reconstruct p.active_formatting_elements p.open_elements
              let p := { p with active_formatting_elements := afe }
              let p ← p.insert_character character
              Res.ok { p with frameset_ok := false }
          | .Comment _ => Res.panic
          | .Doctype _ _ _ => Res.ok (p.error "Unexpected DOCTYPE")
          | .EndOfFile => Res.ok p.stop_parsing
          | .Tag _ _ _ =>
              if token.is_start_tag_with_name ["html"] then Res.panic
              else if token.is_start_tag_with_name
                  ["base", "basefont", "bgsound", "link", "meta", "noframes",
                   "script", "style", "template", "title"] then
                Res.panic
              else if token.is_end_tag_with_name ["template"] then Res.panic
              else if token.is_start_tag_with_name ["body"] then Res.panic
              else if token.is_start_tag_with_name ["frameset"] then Res.panic
              else if token.is_end_tag_with_name ["body"] then
                Res.ok (p.switch_insertion_mode .AfterBody)
              else if token.is_end_tag_with_name ["html"] then Res.panic
              else if token.is_start_tag_with_name
                  ["address", "article", "aside", "blockquote", "center",
                   "details", "dialog", "dir", "div", "dl", "fieldset",
                   "figcaption", "figure", "footer", "header", "hgroup",
                   "main", "menu", "nav", "ol", "p", "search", "section",
                   "summary", "ul"] then do
                let in_button_scope ← Stack.has_element_in_button_scope p.arena "p"
                  p.open_elements
                let p ← if in_button_scope then p.close_p_element else Res.ok p
                let (p, _) ← p.insert_html_element token
                Res.ok p
              else if token.is_start_tag_with_name
                  ["h1", "h2", "h3", "h4", "h5", "h6"] then do
                let in_button_scope ← Stack.has_element_in_button_scope p.arena "p"
                  p.open_elements
                let p ← if in_button_scope then p.close_p_element else Res.ok p
                let cur ← Stack.current_node p.open_elements
                let cn ← p.arena.get_node cur
                let p :=
                  if cn.is_element_with_one_of_tag_names
                      ["h1", "h2", "h3", "h4", "h5", "h6"] then
                    let p := p.error "Unexpected tag"
                    { p with open_elements := (Stack.pop p.open_elements).1 }
                  else p
                let (p, _) ← p.insert_html_element token
                Res.ok p
              else if token.is_start_tag_with_name ["pre", "listing"] then Res.panic
              else if token.is_start_tag_with_name ["form"] then Res.panic
              else if token.is_start_tag_with_name ["li"] then Res.panic
              else if token.is_start_tag_with_name ["dd", "dt"] then Res.panic
              else if token.is_start_tag_with_name ["plaintext"] then Res.panic
              else if token.is_start_tag_with_name ["button"] then Res.panic
              else if token.is_end_tag_with_name
                  ["address", "article", "aside", "blockquote", "button",
                   "center", "details", "dialog", "dir", "div", "dl",
                   "fieldset", "figcaption", "figure", "footer", "header",
                   "hgroup", "listing", "main", "menu", "nav", "ol", "pre",
                   "search", "section", "summary", "ul"] then
                Res.panic
              else if token.is_end_tag_with_name ["form"] then Res.panic
              else if token.is_end_tag_with_name ["p"] then do
                let in_button_scope ← Stack.has_element_in_button_scope p.arena "p"
                  p.open_elements
                let p ←
                  if !in_button_scope then do
                    let p := p.error "Expected p element in button scope"
                    let (p, _) ← p.insert_html_element (.Tag true "p" [])
                    Res.ok p
                  else Res.ok p
                p.close_p_element
              else if token.is_end_tag_with_name ["lo"] then Res.panic
              else if token.is_end_tag_with_name ["dd", "dt"] then Res.panic
              else if token.is_end_tag_with_name
                  ["h1", "h2", "h3", "h4", "h5", "h6"] then
                Res.panic
              else if token.is_start_tag_with_name ["a"] then do
                let afe ← Afe.reconstruct p.active_formatting_elements p.open_elements
                let p := { p with active_formatting_elements := afe }
                let (p, element) ← p.insert_html_element token
                let afe := Afe.push p.active_formatting_elements (.Element element)
                Res.ok { p with active_formatting_elements := afe }
              else if token.is_start_tag_with_name
                  ["b", "big", "code", "em", "font", "i", "s", "small",
                   "strike", "strong", "tt", "u"] then
                Res.panic
              else if token.is_start_tag_with_name ["nobr"] then Res.panic
              else if token.is_end_tag_with_name
                  ["a", "b", "big", "code", "em", "font", "i", "nobr", "s",
                   "small", "strike", "strong", "tt", "u"] then
                run_adoption_agency_algorithm fuel p token
              else if token.is_start_tag_with_name ["applet", "marquee", "object"] then
                Res.panic
              else if token.is_end_tag_with_name ["applet", "marquee", "object"] then
                Res.panic
              else if token.is_start_tag_with_name ["table"] then Res.panic
              else if token.is_end_tag_with_name ["br"] then Res.panic
              else if token.is_start_tag_with_name
                  ["area", "br", "embed", "img", "keygen", "wbr"] then
                Res.panic
              else if token.is_start_tag_with_name ["input"] then Res.panic
              else if token.is_start_tag_with_name ["param", "source", "track"] then
                Res.panic
              else if token.is_start_tag_with_name ["hr"] then Res.panic
              else if token.is_start_tag_with_name ["image"] then Res.panic
              else if token.is_start_tag_with_name ["textarea"] then Res.panic
              else if token.is_start_tag_with_name ["xmp"] then Res.panic
              else if token.is_start_tag_with_name ["iframe"] then Res.panic
              else if token.is_start_tag_with_name ["noembed"] then Res.panic
              else if token.is_start_tag_with_name ["noscript"] && p.scripting then
                Res.panic
              else if token.is_start_tag_with_name ["select"] then Res.panic
              else if token.is_start_tag_with_name ["optgroup", "option"] then
                Res.panic
              else if token.is_start_tag_with_name ["rb", "rtc"] then Res.panic
              else if token.is_start_tag_with_name ["rp", "rt"] then Res.panic
              else if token.is_start_tag_with_name ["math"] then Res.panic
              else if token.is_start_tag_with_name ["svg"] then Res.panic
              else if token.is_start_tag_with_name
                  ["caption", "col", "colgroup", "frame", "head", "tbody",
                   "td", "tfoot", "th", "thead", "tr"] then
                Res.panic
              else if token.is_start_tag then Res.panic
              else if token.isTag && token.is_end_tag then Res.panic
              else Res.panic
    | .Text =>
        match token with
        | .Character character => p.insert_character character
        | .EndOfFile =>
            let p := p.error "Unexpected end of file"
            let p := { p with open_elements := (Stack.pop p.open_elements).1 }
            Res.ok (p.switch_insertion_mode_and_reprocess_token
              p.original_insertion_mode)
        | _ =>
            if token.is_end_tag_with_name ["script"] then Res.panic
            else
              let p := { p with open_elements := (Stack.pop p.open_elements).1 }
              Res.ok (p.switch_insertion_mode p.original_insertion_mode)
    | .InTable => Res.panic
    | .InTableText => Res.panic
    | .InCaption => Res.panic
    | .InColumnGroup => Res.panic
    | .InTableBody => Res.panic
    | .InRow => Res.panic
    | .InCell => Res.panic
    | .InSelect => Res.panic
    | .InSelectInTable => Res.panic
    | .InTemplate => Res.panic
    | .AfterBody =>
        if token.isParserWhitespace then process_token fuel p .InBody token
        else
          match token with
          | .Comment _ => Res.panic
          | .Doctype _ _ _ => Res.panic
          | _ =>
              if token.is_start_tag_with_name ["html"] then
                process_token fuel p .InBody token
              else if token.is_end_tag_with_name ["html"] then
                process_token fuel p .AfterAfterBody token
              else if token = .EndOfFile then Res.ok p.stop_parsing
              else Res.panic
    | .InFrameset => Res.panic
    | .AfterFrameset => Res.panic
    | .AfterAfterBody =>
        match token with
        | .Comment _ => Res.panic
        | .Doctype _ _ _ => Res.panic
        | _ =>
            -- The source guards the or-pattern `whitespace!() | Token::Tag`
            -- with `is_start_tag_with_name(["html"])`, so whitespace tokens
            -- never satisfy it.
            if token.is_start_tag_with_name ["html"] then
              process_token fuel p .InBody token
            else if token = .EndOfFile then Res.ok p.stop_parsing
            else
              let p := p.error "Unexpected token"
              Res.ok (p.switch_insertion_mode .InBody)
    | .AfterAfterFrameset => Res.panic

/-- `Parser::dispatch` (parser.rs): foreign-content parsing is `todo!()`. -/
def dispatch (fuel : Nat) (p : Parser) (token : Token) : Res Parser := do
  let foreign ← p.is_in_foreign_content token
  if !foreign then process_token fuel p p.insertion_mode token
  else Res.panic

/-- The `while let Some(token) = ...` loop of `Parser::parse` (parser.rs),
returning the final parser state at the `break` (or when the tokenizer
yields no token, which never happens for a `next` call). -/
def parse_loop : Nat → Parser → Res Parser
  | 0, _ => Res.timeout
  | fuel + 1, p => do
      let (p, tokenOpt) ←
        if p.should_reprocess_token then Res.ok (p, p.tokenizer.peek)
        else do
          let (t, tok) ← Tokenizer.next (fuel + 1) p.tokenizer
          Res.ok ({ p with tokenizer := t }, tok)
      match tokenOpt with
      | none => Res.ok p
      | some token =>
          if p.should_stop_parsing then Res.ok p
          else do
            let p := { p with should_reprocess_token := false }
            let p ← dispatch (fuel + 1) p token
            parse_loop fuel p

/-- `Parser::parse` (parser.rs): run the loop from a fresh parser and
return (a clone of) the Document node. -/
def parse (fuel : Nat) (html : List Char) : Res Node := do
  let p ← parse_loop fuel (Parser.new html)
  p.arena.get_node p.document

end Parser

/-! ## Claim-side (specification) definitions

Pure total lookups used to *state* properties about the embedded code;
they are compared against the embedded (panicking) operations under
validity hypotheses. -/

/-- Total node lookup for specification statements (out-of-range ids give
a placeholder Document node; theorems using it carry validity hypotheses). -/
def nodeAt (a : NodeArena) (i : NodeId) : Node :=
  (a.nodes.get? i).getD Node.create_document

/-- The node at `i` is a `p` element. -/
def isPElementAt (a : NodeArena) (i : NodeId) : Bool :=
  (nodeAt a i).is_element_with_tag_name "p"

/-- The node at `i` is one of the implied-end-tag elements other than `p`
(the set named by the close-a-p-element claim). -/
def isImpliedEndTagExceptP (a : NodeArena) (i : NodeId) : Bool :=
  (nodeAt a i).is_element_with_one_of_tag_names
    ["dd", "dt", "li", "optgroup", "option", "rb", "rp", "rt", "rtc"]

/-- Positionwise character comparison, exact or ASCII-case-insensitive. -/
def charsMatch (case_sensitive : Bool) (a b : Char) : Bool :=
  if case_sensitive then a = b else eqIgnoreAsciiCase a b

/-- The end tag `</b>` used to invoke the adoption agency algorithm in the
divergence scenario. -/
def c6_token : Token := .Tag false "b" []

/-- A parser state invoking the adoption agency algorithm: the stack of
open elements is (top first) div(4), a(2), b(3), html(1); the b element is
the formatting element (in the active-formatting list, in scope, not the
current node), the div is the furthest block, and the a element sits
between the formatting element and the furthest block without being in the
active-formatting list. -/
def c6_state : Parser := { Parser.new [] with
  arena := ⟨[Node.create_document,
             Node.create_element 0 "html" htmlNamespaceUrl none,
             Node.create_element 0 "a" htmlNamespaceUrl none,
             Node.create_element 0 "b" htmlNamespaceUrl none,
             Node.create_element 0 "div" htmlNamespaceUrl none]⟩,
  open_elements := [4, 2, 3, 1],
  active_formatting_elements := [.Element 3] }

/-- `c6_state` after the outer loop's "not the current node" parse error. -/
def c6_state_err : Parser := { c6_state with
  errors := ["Formatting element is not the current node"] }

/-- The fixed point of the inner adoption-agency loop on `c6_state`: the a
element (2) has been removed from the stack; from here every iteration
re-reads the once-computed `node_above_node = 2`, finds it distinct from
the formatting element and absent from the active-formatting list, and
"removes" it from the stack again without any state change. -/
def c6_state_looping : Parser := { c6_state_err with open_elements := [4, 3, 1] }

/-- Two arenas have the same length and identical per-node shape (kind,
children, parent), and identical `document` fields away from `touched`. -/
def SameShape (a a2 : NodeArena) (touched : List NodeId) : Prop :=
  a2.nodes.length = a.nodes.length ∧
  (∀ i, (a2.nodes.get? i).map Node.children = (a.nodes.get? i).map Node.children) ∧
  (∀ i, (a2.nodes.get? i).map Node.kind = (a.nodes.get? i).map Node.kind) ∧
  (∀ i, (a2.nodes.get? i).map Node.parent = (a.nodes.get? i).map Node.parent) ∧
  (∀ i, i ∉ touched →
    (a2.nodes.get? i).map Node.document = (a.nodes.get? i).map Node.document)

/-! ## Shared lemmas -/

theorem unwrapO_some {α : Type} {o : Option α} {a : α} (h : o = some a) :
    unwrapO o = Res.ok a := by rw [h]; rfl

theorem get_node_ok {a : NodeArena} {i : NodeId} {nd : Node}
    (h : a.nodes.get? i = some nd) : a.get_node i = Res.ok nd :=
  unwrapO_some h

theorem node_document_ok {a : NodeArena} {nd : Node} {i : NodeId}
    (h : a.nodes.get? i = some nd) : ∃ d, a.node_document nd = Res.ok d := by
  unfold NodeArena.node_document
  cases hd : nd.document with
  | some d => exact ⟨d, rfl⟩
  | none =>
      unfold NodeArena.get_node_id
      have hm : nd ∈ a.nodes := List.get?_mem h
      have hex : ∃ x, x ∈ a.nodes ∧ (fun m => decide (m = nd)) x = true :=
        ⟨nd, hm, by simp⟩
      rw [List.findIdx?_eq_some_of_exists hex]
      exact ⟨_, rfl⟩

theorem SameShape.refl (a : NodeArena) (touched : List NodeId) :
    SameShape a a touched :=
  ⟨rfl, fun _ => rfl, fun _ => rfl, fun _ => rfl, fun _ _ => rfl⟩

theorem SameShape.get?_isSome {a a2 : NodeArena} {touched : List NodeId}
    (h : SameShape a a2 touched) {i : NodeId} {nd : Node}
    (hi : a.nodes.get? i = some nd) : ∃ nd2, a2.nodes.get? i = some nd2 ∧
      nd2.children = nd.children ∧ nd2.kind = nd.kind ∧ nd2.parent = nd.parent := by
  obtain ⟨-, hc, hk, hp, -⟩ := h
  have hc := hc i; have hk := hk i; have hp := hp i
  rw [hi] at hc hk hp
  cases h2 : a2.nodes.get? i with
  | none => rw [h2] at hc; simp at hc
  | some nd2 =>
      rw [h2] at hc hk hp
      simp only [Option.map_some'] at hc hk hp
      exact ⟨nd2, rfl, by injection hc, by injection hk, by injection hp⟩

/-- The document-update loop inside `NodeArena::adopt` succeeds on valid
child ids and only rewrites the `document` fields of those children. -/
theorem adopt_foldl_spec (doc : NodeId) :
    ∀ (cs : List NodeId) (a : NodeArena), (∀ c ∈ cs, c < a.nodes.length) →
      ∃ a2, (cs.foldlM (fun (acc : NodeArena) child => do
          let c ← acc.get_node child
          Res.ok (acc.set_node child { c with document := some doc })) a) = Res.ok a2 ∧
        SameShape a a2 cs
  | [], a, _ => ⟨a, rfl, SameShape.refl a []⟩
  | c :: rest, a, hv => by
      have hc : c < a.nodes.length := hv c (List.mem_cons_self c rest)
      have hg : ∃ nc, a.nodes.get? c = some nc := by
        cases hgc : a.nodes.get? c with
        | none => exact absurd (List.get?_eq_none.mp hgc) (Nat.not_le.mpr hc)
        | some nc => exact ⟨nc, rfl⟩
      obtain ⟨nc, hnc⟩ := hg
      set a1 : NodeArena := a.set_node c { nc with document := some doc } with ha1
      have hlen1 : a1.nodes.length = a.nodes.length := by
        simp [ha1, NodeArena.set_node]
      have hgc : a.nodes[c] = nc := by
        have := hnc
        rw [List.get?_eq_getElem?, List.getElem?_eq_getElem hc] at this
        exact Option.some.inj this
      have hshape1 : SameShape a a1 [c] := by
        refine ⟨hlen1, ?_, ?_, ?_, ?_⟩ <;> intro i
        · simp only [ha1, NodeArena.set_node, List.get?_eq_getElem?, List.getElem?_set]
          by_cases h : c = i
          · subst h; simp [hc, List.getElem?_eq_getElem hc, hgc]
          · simp [h]
        · simp only [ha1, NodeArena.set_node, List.get?_eq_getElem?, List.getElem?_set]
          by_cases h : c = i
          · subst h; simp [hc, List.getElem?_eq_getElem hc, hgc]
          · simp [h]
        · simp only [ha1, NodeArena.set_node, List.get?_eq_getElem?, List.getElem?_set]
          by_cases h : c = i
          · subst h; simp [hc, List.getElem?_eq_getElem hc, hgc]
          · simp [h]
        · intro hni
          have h : c ≠ i := fun h => hni (h ▸ List.mem_singleton.mpr rfl)
          simp only [ha1, NodeArena.set_node, List.get?_eq_getElem?, List.getElem?_set]
          simp [h]
      have hvrest : ∀ x ∈ rest, x < a1.nodes.length := by
        intro x hx; rw [hlen1]; exact hv x (List.mem_cons_of_mem c hx)
      obtain ⟨a2, hfold, hshape2⟩ := adopt_foldl_spec doc rest a1 hvrest
      refine ⟨a2, ?_, ?_⟩
      · show (List.foldlM _ a (c :: rest)) = Res.ok a2
        rw [List.foldlM_cons]
        rw [show a.get_node c = Res.ok nc from get_node_ok hnc]
        simpa using hfold
      · obtain ⟨l1, c1, k1, p1, d1⟩ := hshape1
        obtain ⟨l2, c2, k2, p2, d2⟩ := hshape2
        refine ⟨l2.trans l1, fun i => (c2 i).trans (c1 i),
          fun i => (k2 i).trans (k1 i), fun i => (p2 i).trans (p1 i), ?_⟩
        intro i hni
        have hic : i ∉ [c] := by
          intro hm; exact hni (List.mem_singleton.mp hm ▸ List.mem_cons_self c rest)
        have hir : i ∉ rest := fun hm => hni (List.mem_cons_of_mem c hm)
        exact (d2 i hir).trans (d1 i hic)

/-- `NodeArena::adopt` succeeds whenever the node exists, has no parent and
has valid children; it only rewrites the `document` fields of the node's
direct children. -/
theorem adopt_spec {a : NodeArena} {node : NodeId} {nd : Node} (doc : NodeId)
    (h : a.nodes.get? node = some nd) (hp : nd.parent = none)
    (hch : ∀ c ∈ nd.children, c < a.nodes.length) :
    ∃ a2, a.adopt node doc = Res.ok a2 ∧ SameShape a a2 nd.children := by
  unfold NodeArena.adopt
  obtain ⟨old, holddoc⟩ := node_document_ok h
  rw [show a.get_node node = Res.ok nd from get_node_ok h]
  simp only [bind_eq_rbind, Res.bind_ok]
  rw [holddoc]
  simp only [Res.bind_ok, hp, Option.isSome_none, Bool.false_eq_true, if_false]
  by_cases hed : doc = old
  · subst hed
    simp only [ne_eq, not_true_eq_false, reduceIte]
    exact ⟨a, rfl, SameShape.refl a nd.children⟩
  · simp only [ne_eq, hed, not_false_eq_true, reduceIte]
    obtain ⟨a2, hfold, hsh⟩ := adopt_foldl_spec doc nd.children a hch
    exact ⟨a2, hfold, hsh⟩

/-! ## Claim theorems -/

/-- C9: every token that is not a `Tag` token satisfies `is_end_tag = true`
(it is defined as the negation of `is_start_tag`), while the composed query
`is_end_tag_with_name` is `false` on it for every name list, because it
additionally requires the token to be a `Tag`. -/
theorem c9_is_end_tag_on_non_tags (t : Token) (h : t.isTag = false) :
    t.is_end_tag = true ∧ ∀ names, t.is_end_tag_with_name names = false := by
  constructor
  · cases t <;> simp_all [Token.isTag, Token.is_end_tag, Token.is_start_tag]
  · intro names
    cases t <;> simp_all [Token.isTag, Token.is_end_tag_with_name,
      Token.is_tag_with_name, Token.is_end_tag, Token.is_start_tag]

/-- Witness for C9 at the `EndOfFile` token. -/
theorem c9_witness :
    Token.EndOfFile.isTag = false ∧ Token.EndOfFile.is_end_tag = true ∧
      Token.EndOfFile.is_end_tag_with_name ["div"] = false :=
  ⟨rfl, (c9_is_end_tag_on_non_tags .EndOfFile rfl).1,
    (c9_is_end_tag_on_non_tags .EndOfFile rfl).2 ["div"]⟩

/-- C8 counterexample: with the word "abc" and only the two characters "ab"
remaining, fewer than `len W` scalars remain, yet
`next_few_input_characters_are` answers `true` (its `zip` silently stops at
the shorter sequence) — the claim requires `false` here. -/
theorem c8_counterexample :
    (Tokenizer.new ['a', 'b']).next_few_input_characters_are ['a', 'b', 'c'] true = true ∧
    ((Tokenizer.new ['a', 'b']).html.drop
        (Tokenizer.new ['a', 'b']).insertion_point).length < ['a', 'b', 'c'].length := by
  constructor
  · rfl
  · decide

/-- C8 (amended): `next_few_input_characters_are` answers `true` iff the
word and the remaining input agree (exactly, or ASCII-case-insensitively)
at every position where *both* are defined — i.e. it checks only the first
`min(len W, remaining)` scalars and never consults the stream's mutable
state. -/
theorem c8_prefix_check_characterization (t : Tokenizer) (word : List Char)
    (cs : Bool) :
    t.next_few_input_characters_are word cs = true ↔
      ∀ i a b, (t.html.drop t.insertion_point).get? i = some a →
        word.get? i = some b → charsMatch cs a b = true := by
  unfold Tokenizer.next_few_input_characters_are charsMatch
  generalize t.html.drop t.insertion_point = rem
  induction rem generalizing word with
  | nil => simp
  | cons x xs ih =>
      cases word with
      | nil => simp
      | cons y ys =>
          simp only [List.zip_cons_cons, List.all_cons, Bool.and_eq_true]
          constructor
          · rintro ⟨h1, h2⟩ i a b ha hb
            match i with
            | 0 =>
                simp only [List.get?_cons_zero, Option.some.injEq] at ha hb
                subst ha; subst hb; exact h1
            | i + 1 =>
                simp only [List.get?_cons_succ] at ha hb
                exact (ih ys).mp h2 i a b ha hb
          · intro h
            refine ⟨h 0 x y rfl rfl, (ih ys).mpr ?_⟩
            intro i a b ha hb
            exact h (i + 1) a b ha hb

/-- C2 counterexample: on the input "<" the tokenizer consumes `<`, moves
to the TagOpen state, meets end-of-input there and panics (`todo!()`), so
EOF is fatal in the TagOpen state and no EndOfFile token is ever emitted. -/
theorem c2_counterexample :
    Tokenizer.next 10 (Tokenizer.new ['<']) = Res.panic := by rfl

/-- C2 (amended): in the `Data` state an exhausted input does make `next`
emit an `EndOfFile` token (EOF is non-fatal *there*); the original claim
fails in stub states such as TagOpen, and `next` need not terminate at all
in `MarkupDeclarationOpen`. -/
theorem c2_data_state_eof (t : Tokenizer) (fuel : Nat) (hs : t.state = .Data)
    (he : t.html.length ≤ t.insertion_point) (hf : 0 < fuel) :
    Tokenizer.next fuel t =
      Res.ok ({ t with tokens := t.tokens ++ [Token.EndOfFile],
                       insertion_point := t.insertion_point + 1 },
              some Token.EndOfFile) := by
  obtain ⟨n, rfl⟩ : ∃ n, fuel = n + 1 := ⟨fuel - 1, by omega⟩
  obtain ⟨html, state, rs, toks, ct, ip⟩ := t
  simp only at hs he ⊢
  subst hs
  have hcur : Tokenizer.current_input_character ⟨html, .Data, rs, toks, ct, ip⟩ = none := by
    unfold Tokenizer.current_input_character
    exact List.get?_eq_none.mpr he
  have hstep : Tokenizer.step ⟨html, .Data, rs, toks, ct, ip⟩ = Res.ok
      (⟨html, .Data, rs, toks, ct, ip + 1⟩, some Token.EndOfFile) := by
    unfold Tokenizer.step
    simp [Tokenizer.consume_next_input_character, hcur]
  unfold Tokenizer.next
  rw [hstep]
  simp [Tokenizer.peek, List.getLast?_concat]

/-- Witness for C2 (amended) on the exhausted one-character input "x". -/
theorem c2_witness :
    (Tokenizer.new ['x']).html.length ≤ 1 ∧
    Tokenizer.next 5 { Tokenizer.new ['x'] with insertion_point := 1 } =
      Res.ok ({ Tokenizer.new ['x'] with tokens := [Token.EndOfFile], insertion_point := 2 },
              some Token.EndOfFile) :=
  ⟨by decide,
    c2_data_state_eof { Tokenizer.new ['x'] with insertion_point := 1 } 5
      rfl (by decide) (by decide)⟩

/-- Supporting fact for C2: in the MarkupDeclarationOpen state with input
that begins with neither `--` nor `DOCTYPE` (here: after consuming "<!" of
the input "<!x"), one iteration of the tokenizer loop changes nothing and
emits nothing, so `next` spins forever (times out at every fuel). -/
theorem tokenizer_mdo_next_diverges : ∀ fuel,
    Tokenizer.next fuel { Tokenizer.new ['<', '!', 'x'] with
      state := .MarkupDeclarationOpen, insertion_point := 2 } = Res.timeout
  | 0 => rfl
  | fuel + 1 => by
      have ih := tokenizer_mdo_next_diverges fuel
      unfold Tokenizer.next
      rw [show Tokenizer.step { Tokenizer.new ['<', '!', 'x'] with
          state := .MarkupDeclarationOpen, insertion_point := 2 } =
        Res.ok ({ Tokenizer.new ['<', '!', 'x'] with
          state := .MarkupDeclarationOpen, insertion_point := 2 }, none) from rfl]
      exact ih

/-- C3: `NodeArena::insert` links the child into the parent's child list,
but no arena mutation ever writes the child's `parent` field: after
`insert(1, 0, None)` on a two-node arena, node 1 occurs in node 0's
children while node 1's `parent` is still `none` (not `some 0`), violating
the claimed bidirectional parent/child-list agreement. -/
theorem c3_parent_edge_never_written :
    (NodeArena.insert
        ⟨[Node.create_document, Node.create_element 0 "div" htmlNamespaceUrl none]⟩
        1 0 none).bind
      (fun a => Res.ok ((a.nodes.get? 0).map Node.children,
                        (a.nodes.get? 1).map Node.parent))
      = Res.ok (some [1], some none) := by rfl

/-- `NodeArena::insert` with `before_child = None`: it succeeds on a valid
parentless node with valid children and ends by appending the node to the
parent's (otherwise unchanged) child list; only the documents of the node's
direct children are touched along the way. -/
theorem insert_none_spec {a : NodeArena} {node parent : NodeId} {nd pd : Node}
    (hnd : a.nodes.get? node = some nd)
    (hpd : a.nodes.get? parent = some pd)
    (hparent : nd.parent = none)
    (hch : ∀ c ∈ nd.children, c < a.nodes.length) :
    ∃ a2 pd2, a.insert node parent none =
        Res.ok (a2.set_node parent { pd2 with children := pd2.children ++ [node] }) ∧
      SameShape a a2 nd.children ∧ a2.nodes.get? parent = some pd2 ∧
      pd2.children = pd.children ∧ pd2.kind = pd.kind ∧ pd2.parent = pd.parent := by
  unfold NodeArena.insert
  obtain ⟨doc, hdoc⟩ := node_document_ok hpd
  obtain ⟨a2, hadopt, hsh⟩ := adopt_spec doc hnd hparent hch
  obtain ⟨pd2, hpd2, hc2, hk2, hp2⟩ := hsh.get?_isSome hpd
  refine ⟨a2, pd2, ?_, hsh, hpd2, hc2, hk2, hp2⟩
  rw [show a.get_node parent = Res.ok pd from get_node_ok hpd]
  simp only [bind_eq_rbind, Res.bind_ok]
  rw [hdoc]
  simp only [Res.bind_ok]
  rw [hadopt]
  simp only [Res.bind_ok]
  rw [show a2.get_node parent = Res.ok pd2 from get_node_ok hpd2]
  simp only [Res.bind_ok, pure_eq_rok]

/-- C4 counterexample: inserting node 1 into node 0 before the absent child
99 panics (`unwrap` of a failed `position` lookup); it does not fall back
to appending — the plain append on the same arena succeeds. -/
theorem c4_counterexample :
    NodeArena.insert
        ⟨[Node.create_document, Node.create_element 0 "div" htmlNamespaceUrl none]⟩
        1 0 (some 99) = Res.panic ∧
    NodeArena.append
        ⟨[Node.create_document, Node.create_element 0 "div" htmlNamespaceUrl none]⟩
        1 0 =
      Res.ok (⟨[{ Node.create_document with children := [1] },
                Node.create_element 0 "div" htmlNamespaceUrl none]⟩, 1) := by
  constructor <;> rfl

/-- C4 (amended): whenever `before_child` is given but absent from the
parent's child list, `NodeArena::insert` panics (the `unwrap` on the
`position` lookup fails); it never falls back to appending. -/
theorem c4_absent_before_child_panics {a : NodeArena} {node parent b : NodeId}
    {nd pd : Node}
    (hnd : a.nodes.get? node = some nd)
    (hpd : a.nodes.get? parent = some pd)
    (hparent : nd.parent = none)
    (hch : ∀ c ∈ nd.children, c < a.nodes.length)
    (habsent : b ∉ pd.children) :
    a.insert node parent (some b) = Res.panic := by
  unfold NodeArena.insert
  obtain ⟨doc, hdoc⟩ := node_document_ok hpd
  obtain ⟨a2, hadopt, hsh⟩ := adopt_spec doc hnd hparent hch
  obtain ⟨pd2, hpd2, hc2, -, -⟩ := hsh.get?_isSome hpd
  rw [show a.get_node parent = Res.ok pd from get_node_ok hpd]
  simp only [bind_eq_rbind, Res.bind_ok]
  rw [hdoc]
  simp only [Res.bind_ok]
  rw [hadopt]
  simp only [Res.bind_ok]
  rw [show a2.get_node parent = Res.ok pd2 from get_node_ok hpd2]
  simp only [Res.bind_ok]
  have hnone : pd2.children.indexOf? b = none := by
    rw [hc2]
    exact List.indexOf?_eq_none_iff.mpr (fun x hx hbeq =>
      habsent (by rwa [show x = b from by simpa using hbeq] at hx))
  rw [hnone]
  rfl

/-- Witness for C4 (amended) on the two-node arena with before-child 99. -/
theorem c4_witness :
    (99 ∈ ([] : List NodeId)) = False ∧
    NodeArena.insert
        ⟨[Node.create_document, Node.create_element 0 "div" htmlNamespaceUrl none]⟩
        1 0 (some 99) = Res.panic :=
  ⟨by simp,
    @c4_absent_before_child_panics
      ⟨[Node.create_document, Node.create_element 0 "div" htmlNamespaceUrl none]⟩
      1 0 99
      (Node.create_element 0 "div" htmlNamespaceUrl none)
      Node.create_document
      rfl rfl rfl
      (by intro c hc; simp [Node.create_element] at hc) (by simp [Node.create_document])⟩

/-- C5 counterexample: node 1 carries `document = some 1`; inserting it
under the Document node 0 (whose `node_document` is 0) leaves node 1's own
`document` field at `some 1` — adoption did not update the inserted node's
document. -/
theorem c5_counterexample :
    (NodeArena.insert
        ⟨[Node.create_document,
          { kind := .element (some htmlNamespaceUrl) none "div" "div",
            document := some 1, children := [], parent := none }]⟩
        1 0 none).bind
      (fun a => Res.ok ((a.nodes.get? 1).map Node.document))
      = Res.ok (some (some 1)) ∧ some (some 1) ≠ some (some (0 : NodeId)) := by
  constructor
  · rfl
  · simp

/-- C5 (amended): `NodeArena::insert` leaves the inserted node's own
`document` field unchanged; the adoption step rewrites only the `document`
fields of the node's direct children. -/
theorem c5_adoption_leaves_own_document {a : NodeArena} {node parent : NodeId}
    {nd pd : Node}
    (hnd : a.nodes.get? node = some nd)
    (hpd : a.nodes.get? parent = some pd)
    (hparent : nd.parent = none)
    (hch : ∀ c ∈ nd.children, c < a.nodes.length)
    (hself : node ∉ nd.children) :
    ∃ a3, a.insert node parent none = Res.ok a3 ∧
      (a3.nodes.get? node).map Node.document = some nd.document := by
  obtain ⟨a2, pd2, hres, hsh, hpd2, hc2, hk2, hp2⟩ :=
    insert_none_spec hnd hpd hparent hch
  refine ⟨_, hres, ?_⟩
  obtain ⟨-, -, -, -, hdocs⟩ := hsh
  have hnode2 : (a2.nodes.get? node).map Node.document = some nd.document := by
    have := hdocs node hself
    rw [hnd] at this
    exact this
  by_cases hpn : parent = node
  · subst hpn
    rw [hpd2] at hnode2
    simp only [Option.map_some'] at hnode2
    have hlt : parent < a2.nodes.length := by
      have := List.get?_eq_some.mp hpd2
      exact this.1
    simp only [NodeArena.set_node, List.get?_eq_getElem?, List.getElem?_set_self hlt,
      Option.map_some']
    exact hnode2
  · have hget : (a2.set_node parent
        { pd2 with children := pd2.children ++ [node] }).nodes.get? node =
        a2.nodes.get? node := by
      show (a2.nodes.set parent _).get? node = a2.nodes.get? node
      rw [List.get?_eq_getElem?, List.get?_eq_getElem?]
      exact List.getElem?_set_ne hpn
    rw [hget]
    exact hnode2

/-- Witness for C5 (amended) on the counterexample arena. -/
theorem c5_witness :
    (1 ∈ ([] : List NodeId)) = False ∧
    (NodeArena.insert
        ⟨[Node.create_document,
          { kind := .element (some htmlNamespaceUrl) none "div" "div",
            document := some 1, children := [], parent := none }]⟩
        1 0 none).bind
      (fun a => Res.ok ((a.nodes.get? 1).map Node.document))
      = Res.ok (some (some 1)) := by
  refine ⟨by simp, ?_⟩
  obtain ⟨a3, hres, hdoc⟩ := @c5_adoption_leaves_own_document
    ⟨[Node.create_document,
      Node.mk (.element (some htmlNamespaceUrl) none "div" "div") (some 1) [] none]⟩
    1 0
    (Node.mk (.element (some htmlNamespaceUrl) none "div" "div") (some 1) [] none)
    Node.create_document
    rfl rfl rfl
    (by intro c hc; simp at hc) (by simp)
  rw [hres]
  simpa using hdoc

/-- A `p` element is not in the p-less implied-end-tag list. -/
theorem is_p_not_in_nine (n : Node) (hp : n.is_element_with_tag_name "p" = true) :
    n.is_element_with_one_of_tag_names
      ["dd", "dt", "li", "optgroup", "option", "rb", "rp", "rt", "rtc"] = false := by
  revert hp
  unfold Node.is_element_with_tag_name Node.is_element_with_one_of_tag_names
  cases hk : n.kind with
  | document => intro hp; simp at hp
  | text d => intro hp; simp at hp
  | doctype nm pid sid => intro hp; simp at hp
  | element ns px ln tag =>
      intro hp
      rw [show tag = "p" by simpa using hp]
      rfl

/-- On any node, membership of its tag in the full implied-end-tag list of
the source (which includes "p") is membership in the p-less list or being a
`p` element. -/
theorem implied_full_iff (n : Node) :
    n.is_element_with_one_of_tag_names
        ["dd", "dt", "li", "optgroup", "option", "p", "rb", "rp", "rt", "rtc"] =
      (n.is_element_with_tag_name "p" ||
       n.is_element_with_one_of_tag_names
        ["dd", "dt", "li", "optgroup", "option", "rb", "rp", "rt", "rtc"]) := by
  unfold Node.is_element_with_one_of_tag_names Node.is_element_with_tag_name
  cases hk : n.kind with
  | document => simp
  | text d => simp
  | doctype nm pid sid => simp
  | element ns px ln tag =>
      by_cases hp : tag = "p"
      · subst hp; rfl
      · simp [hp]

/-- `generate_implied_end_tags_except_for "p"` pops exactly the maximal
top run of non-`p` implied-end-tag elements. -/
theorem gen_implied_spec (arena : NodeArena) :
    ∀ l : List NodeId, (∀ e ∈ l, e < arena.nodes.length) →
      l.dropWhile (isImpliedEndTagExceptP arena) ≠ [] →
      Parser.generate_implied_end_tags_except_for arena "p" l =
        Res.ok (l.dropWhile (isImpliedEndTagExceptP arena))
  | [], _, hst => absurd rfl hst
  | e :: es, hv, hst => by
      have he : e < arena.nodes.length := hv e (List.mem_cons_self e es)
      obtain ⟨n, hn⟩ : ∃ n, arena.nodes.get? e = some n := by
        cases hg : arena.nodes.get? e with
        | none => exact absurd (List.get?_eq_none.mp hg) (Nat.not_le.mpr he)
        | some n => exact ⟨n, rfl⟩
      have hna : nodeAt arena e = n := by unfold nodeAt; rw [hn]; rfl
      have hvrest : ∀ x ∈ es, x < arena.nodes.length :=
        fun x hx => hv x (List.mem_cons_of_mem e hx)
      unfold Parser.generate_implied_end_tags_except_for
      rw [show arena.get_node e = Res.ok n from get_node_ok hn]
      simp only [bind_eq_rbind, Res.bind_ok]
      by_cases hp : n.is_element_with_tag_name "p" = true
      · have hpred : isImpliedEndTagExceptP arena e = false := by
          unfold isImpliedEndTagExceptP
          rw [hna]
          exact is_p_not_in_nine n hp
        simp [hp, List.dropWhile_cons, hpred]
      · by_cases hf : n.is_element_with_one_of_tag_names
            ["dd", "dt", "li", "optgroup", "option", "p", "rb", "rp", "rt", "rtc"] = true
        · have hpred : isImpliedEndTagExceptP arena e = true := by
            unfold isImpliedEndTagExceptP
            rw [hna]
            have h10 := implied_full_iff n
            rw [hf] at h10
            cases h9 : n.is_element_with_one_of_tag_names
                ["dd", "dt", "li", "optgroup", "option", "rb", "rp", "rt", "rtc"] with
            | true => rfl
            | false =>
                rw [h9] at h10
                simp only [Bool.or_false] at h10
                exact absurd h10.symm hp
          have hst2 : es.dropWhile (isImpliedEndTagExceptP arena) ≠ [] := by
            rw [List.dropWhile_cons, hpred] at hst
            simpa using hst
          rw [List.dropWhile_cons, hpred]
          simp only [if_true]
          simp only [hp, Bool.false_eq_true, if_false, hf, Bool.not_true, if_true]
          exact gen_implied_spec arena es hvrest hst2
        · have hpred : isImpliedEndTagExceptP arena e = false := by
            unfold isImpliedEndTagExceptP
            rw [hna]
            have h10 := implied_full_iff n
            cases h9 : n.is_element_with_one_of_tag_names
                ["dd", "dt", "li", "optgroup", "option", "rb", "rp", "rt", "rtc"] with
            | true =>
                rw [h9, Bool.or_true] at h10
                exact absurd h10 hf
            | false => rfl
          simp [hp, hf, List.dropWhile_cons, hpred]

/-- `pop_until_element_with_tag_name "p"` pops the maximal top run of
non-`p` entries and then the `p` itself (everything, when no `p` exists). -/
theorem pop_until_p_spec (arena : NodeArena) :
    ∀ l : List NodeId, (∀ e ∈ l, e < arena.nodes.length) →
      Stack.pop_until_element_with_tag_name arena "p" l =
        Res.ok ((l.dropWhile (fun e => !(isPElementAt arena e))).drop 1)
  | [], _ => rfl
  | e :: es, hv => by
      have he : e < arena.nodes.length := hv e (List.mem_cons_self e es)
      obtain ⟨n, hn⟩ : ∃ n, arena.nodes.get? e = some n := by
        cases hg : arena.nodes.get? e with
        | none => exact absurd (List.get?_eq_none.mp hg) (Nat.not_le.mpr he)
        | some n => exact ⟨n, rfl⟩
      have hna : isPElementAt arena e = n.is_element_with_tag_name "p" := by
        unfold isPElementAt nodeAt; rw [hn]; rfl
      unfold Stack.pop_until_element_with_tag_name
      rw [show arena.get_node e = Res.ok n from get_node_ok hn]
      simp only [bind_eq_rbind, Res.bind_ok]
      rw [List.dropWhile_cons]
      by_cases hp : n.is_element_with_tag_name "p"
      · rw [if_pos hp, if_neg (by simp [hna, hp])]
        simp
      · rw [if_neg hp, if_pos (by simp [hna, hp])]
        exact pop_until_p_spec arena es
          (fun x hx => hv x (List.mem_cons_of_mem e hx))

/-- C7: `close_p_element` first pops the maximal run of implied-end-tag
elements other than `p` from the top of the stack, then reports a parse
error exactly when the current node is not a `p` element, then pops until
(and including) a `p`. -/
theorem c7_close_p_element (p : Parser)
    (hv : ∀ e ∈ p.open_elements, e < p.arena.nodes.length)
    (hstop : p.open_elements.dropWhile (isImpliedEndTagExceptP p.arena) ≠ []) :
    Parser.close_p_element p = Res.ok { p with
      open_elements :=
        ((p.open_elements.dropWhile (isImpliedEndTagExceptP p.arena)).dropWhile
          (fun e => !(isPElementAt p.arena e))).drop 1,
      errors := p.errors ++
        (if isPElementAt p.arena
            ((p.open_elements.dropWhile (isImpliedEndTagExceptP p.arena)).headI)
         then []
         else ["Expected current node to be a p element while closing a p element"]) } := by
  unfold Parser.close_p_element
  rw [gen_implied_spec p.arena p.open_elements hv hstop]
  simp only [bind_eq_rbind, Res.bind_ok]
  obtain ⟨e, es, hes⟩ : ∃ e es,
      p.open_elements.dropWhile (isImpliedEndTagExceptP p.arena) = e :: es := by
    cases hs : p.open_elements.dropWhile (isImpliedEndTagExceptP p.arena) with
    | nil => exact absurd hs hstop
    | cons e es => exact ⟨e, es, rfl⟩
  rw [hes]
  have hsub : ∀ x ∈ e :: es, x < p.arena.nodes.length := by
    intro x hx
    exact hv x ((List.dropWhile_sublist _).mem (hes ▸ hx))
  have he : e < p.arena.nodes.length := hsub e (List.mem_cons_self e es)
  obtain ⟨n, hn⟩ : ∃ n, p.arena.nodes.get? e = some n := by
    cases hg : p.arena.nodes.get? e with
    | none => exact absurd (List.get?_eq_none.mp hg) (Nat.not_le.mpr he)
    | some n => exact ⟨n, rfl⟩
  have hna : isPElementAt p.arena e = n.is_element_with_tag_name "p" := by
    unfold isPElementAt nodeAt; rw [hn]; rfl
  show Res.bind (Stack.current_node (e :: es)) _ = _
  rw [show Stack.current_node (e :: es) = Res.ok e from rfl]
  simp only [Res.bind_ok]
  rw [show ({ p with open_elements := e :: es } : Parser).arena.get_node e =
    Res.ok n from get_node_ok hn]
  simp only [Res.bind_ok]
  by_cases hp : n.is_element_with_tag_name "p"
  · rw [if_neg (by simp [hp])]
    rw [pop_until_p_spec p.arena (e :: es) hsub]
    simp only [Res.bind_ok, pure_eq_rok]
    simp [List.headI, hna, hp]
  · rw [if_pos (by simp [hp])]
    rw [show ({ p with open_elements := e :: es } : Parser).error
        "Expected current node to be a p element while closing a p element" =
      { p with open_elements := e :: es,
               errors := p.errors ++
                 ["Expected current node to be a p element while closing a p element"] }
      from rfl]
    rw [pop_until_p_spec p.arena (e :: es) hsub]
    simp only [Res.bind_ok, pure_eq_rok]
    simp [List.headI, hna, hp]

/-- Witness for C7: stack \[li, p, html\] (top first); the li is popped as an
implied end tag, the current node is then the p (no error), and the p is
popped. -/
theorem c7_witness :
    ([2, 1, 0].all (fun e => e < 3)) = true ∧
    Parser.close_p_element { Parser.new [] with
        arena := ⟨[Node.create_element 0 "html" htmlNamespaceUrl none,
                   Node.create_element 0 "p" htmlNamespaceUrl none,
                   Node.create_element 0 "li" htmlNamespaceUrl none]⟩,
        open_elements := [2, 1, 0] } =
      Res.ok { Parser.new [] with
        arena := ⟨[Node.create_element 0 "html" htmlNamespaceUrl none,
                   Node.create_element 0 "p" htmlNamespaceUrl none,
                   Node.create_element 0 "li" htmlNamespaceUrl none]⟩,
        open_elements := [0] } :=
  ⟨by decide,
    c7_close_p_element { Parser.new [] with
        arena := ⟨[Node.create_element 0 "html" htmlNamespaceUrl none,
                   Node.create_element 0 "p" htmlNamespaceUrl none,
                   Node.create_element 0 "li" htmlNamespaceUrl none]⟩,
        open_elements := [2, 1, 0] }
      (by decide) (by decide)⟩

/-- Helper: `get?` into a list extended on the right, below the old length. -/
theorem get?_append_lt {α : Type} {l : List α} {x : α} {d : Nat} {v : α}
    (h : l.get? d = some v) : (l ++ [x]).get? d = some v := by
  have hd : d < l.length := (List.get?_eq_some.mp h).1
  rw [List.get?_eq_getElem?] at h ⊢
  rwa [List.getElem?_append_left hd]

/-- C10: when the adjusted insertion location's parent is the Document
node, `insert_character` returns the parser state unchanged; and in every
successful run of `insert_character`, no Document-kind node's child list
changes — the Document never acquires a Text child this way. -/
theorem c10_insert_character_document_guard (p : Parser) (c : Char)
    (cur : NodeId) (cn : Node)
    (hfoster : p.foster_parenting = false)
    (hhead : p.open_elements.head? = some cur)
    (hcn : p.arena.nodes.get? cur = some cn) :
    (cn.is_document = true → p.insert_character c = Res.ok p) ∧
    (∀ p2, p.insert_character c = Res.ok p2 →
      ∀ d dn, p.arena.nodes.get? d = some dn → dn.kind = NodeKind.document →
        (p2.arena.nodes.get? d).map Node.children = some dn.children) := by
  have hloc : p.appropriate_place_for_inserting_node none =
      Res.ok ⟨cur, none⟩ := by
    unfold Parser.appropriate_place_for_inserting_node Stack.current_node
    rw [hhead]
    simp [unwrapO, hfoster]
  constructor
  · intro hdoc
    unfold Parser.insert_character
    rw [hloc]
    simp only [bind_eq_rbind, Res.bind_ok]
    rw [show p.arena.get_node cur = Res.ok cn from get_node_ok hcn]
    simp only [Res.bind_ok]
    rw [hdoc]
    simp
  · intro p2 hp2 d dn hd hdn
    unfold Parser.insert_character at hp2
    rw [hloc] at hp2
    simp only [bind_eq_rbind, Res.bind_ok] at hp2
    rw [show p.arena.get_node cur = Res.ok cn from get_node_ok hcn] at hp2
    simp only [Res.bind_ok] at hp2
    by_cases hdoc : cn.is_document = true
    · rw [hdoc] at hp2
      simp only [if_true] at hp2
      cases hp2
      rw [hd]
      rfl
    · rw [show cn.is_document = false from Bool.eq_false_iff.mpr hdoc] at hp2
      simp only [Bool.false_eq_true, if_false] at hp2
      have hdcur : d ≠ cur := by
        intro h
        subst h
        rw [hd] at hcn
        cases hcn
        apply hdoc
        unfold Node.is_document
        rw [hdn]
        rfl
      -- The create-a-fresh-Text-node continuation, shared by all branches
      -- that do not append to an existing Text node.
      have hcreate : ∀ hq : (do
          let document ← p.arena.node_document cn
          let text_node := Node.create_text document (String.singleton c)
          let (arena, text_node_id) := p.arena.create_node text_node
          let arena ← InsertionLocation.insert_element ⟨cur, none⟩ arena text_node_id
          Res.ok { p with arena := arena } : Res Parser) = Res.ok p2,
          (p2.arena.nodes.get? d).map Node.children = some dn.children := by
        intro hq
        obtain ⟨docv, hdocv⟩ := node_document_ok hcn
        rw [hdocv] at hq
        simp only [bind_eq_rbind, Res.bind_ok, NodeArena.create_node,
          InsertionLocation.insert_element] at hq
        have htext : (⟨p.arena.nodes ++
            [Node.create_text docv (String.singleton c)]⟩ : NodeArena).nodes.get?
            p.arena.nodes.length = some (Node.create_text docv (String.singleton c)) := by
          show (p.arena.nodes ++ _).get? p.arena.nodes.length = _
          rw [List.get?_eq_getElem?]
          exact List.getElem?_concat_length _ _
        have hcur1 : (⟨p.arena.nodes ++
            [Node.create_text docv (String.singleton c)]⟩ : NodeArena).nodes.get?
            cur = some cn := get?_append_lt hcn
        obtain ⟨a2, pd2, hres, hsh, hpd2, hc2, hk2, hp2'⟩ :=
          insert_none_spec htext hcur1 rfl (by intro x hx; simp [Node.create_text] at hx)
        rw [hres] at hq
        simp only [Res.bind_ok] at hq
        cases hq
        have hd1 : (⟨p.arena.nodes ++
            [Node.create_text docv (String.singleton c)]⟩ : NodeArena).nodes.get?
            d = some dn := get?_append_lt hd
        obtain ⟨dn2, hdn2, hcch, -, -⟩ := hsh.get?_isSome hd1
        show ((a2.set_node cur _).nodes.get? d).map Node.children = _
        have hset : (a2.set_node cur { pd2 with
            children := pd2.children ++ [p.arena.nodes.length] }).nodes.get? d =
            a2.nodes.get? d := by
          show (a2.nodes.set cur _).get? d = a2.nodes.get? d
          rw [List.get?_eq_getElem?, List.get?_eq_getElem?]
          exact List.getElem?_set_ne (fun h => hdcur h.symm)
        rw [hset, hdn2]
        simp [hcch]
      cases hlast : cn.children.getLast? with
      | none =>
          rw [hlast] at hp2
          simp only [Res.bind_ok] at hp2
          exact hcreate hp2
      | some last =>
          rw [hlast] at hp2
          dsimp only at hp2
          cases hgl : p.arena.nodes.get? last with
          | none =>
              rw [show p.arena.get_node last = Res.panic from by
                unfold NodeArena.get_node; rw [hgl]; rfl] at hp2
              simp only [bind_eq_rbind, Res.bind_panic] at hp2
              cases hp2
          | some ln =>
              rw [show p.arena.get_node last = Res.ok ln from get_node_ok hgl] at hp2
              simp only [bind_eq_rbind, Res.bind_ok] at hp2
              cases hk : ln.kind with
              | text txt =>
                  rw [hk] at hp2
                  dsimp only at hp2
                  cases hp2
                  show ((p.arena.set_node last (Node.mk (NodeKind.text (txt.push c))
                      ln.document ln.children ln.parent)).nodes.get? d).map Node.children =
                    some dn.children
                  by_cases hdl : d = last
                  · subst hdl
                    rw [hd] at hgl
                    cases hgl
                    have hlt : d < p.arena.nodes.length := (List.get?_eq_some.mp hd).1
                    show ((p.arena.nodes.set d (Node.mk (NodeKind.text (txt.push c))
                        dn.document dn.children dn.parent)).get? d).map Node.children =
                      some dn.children
                    rw [List.get?_eq_getElem?, List.getElem?_set_self hlt]
                    rfl
                  · have heq : (p.arena.set_node last (Node.mk (NodeKind.text (txt.push c))
                        ln.document ln.children ln.parent)).nodes.get? d =
                        p.arena.nodes.get? d := by
                      show (p.arena.nodes.set last _).get? d = p.arena.nodes.get? d
                      rw [List.get?_eq_getElem?, List.get?_eq_getElem?]
                      exact List.getElem?_set_ne (fun h => hdl h.symm)
                    rw [heq, hd]
                    rfl
              | document => rw [hk] at hp2; exact hcreate hp2
              | element ns px ln2 tag => rw [hk] at hp2; exact hcreate hp2
              | doctype nm pid sid => rw [hk] at hp2; exact hcreate hp2

/-- Witness for C10: with the Document node itself as the current node,
`insert_character` leaves the parser untouched. -/
theorem c10_witness :
    (Parser.new []).foster_parenting = false ∧
    Parser.insert_character { Parser.new [] with open_elements := [0] } 'x' =
      Res.ok { Parser.new [] with open_elements := [0] } :=
  ⟨rfl,
    (c10_insert_character_document_guard { Parser.new [] with open_elements := [0] }
      'x' 0 Node.create_document rfl rfl rfl).1 rfl⟩

/-- C1 counterexample: on the input "a" the parser reaches the BeforeHead
insertion mode with a character token and hits the `todo!()` fallback arm —
`parse` panics instead of returning a best-effort Document. -/
theorem c1_counterexample :
    Parser.parse 50 ['a'] = Res.panic := by rfl

/-- C1 (amended): for inputs confined to the implemented subset the parser
does return the root Document with every deviation reported through the
(non-fatal) error sink — here a complete run producing
Document/html/(head, body/p/"x") with an empty error log. -/
theorem c1_implemented_subset_returns_tree :
    Parser.parse 100 "<html><head></head><p>x".data =
      Res.ok { kind := .document, document := none, children := [1], parent := none } ∧
    (Parser.parse_loop 100 (Parser.new "<html><head></head><p>x".data)).bind
        (fun p => Res.ok (p.errors, p.arena.nodes.map Node.children)) =
      Res.ok ([], [[1], [2, 3], [], [4], [5], []]) := by
  constructor
  · rfl
  · rfl

/-- From the looping state, the inner adoption-agency loop makes no
progress at any iteration count: `node_above_node` was computed once before
the loop, so `node` is reset to the same removed element forever. -/
theorem c6_inner_timeout : ∀ (fuel count : Nat),
    Parser.adoption_inner c6_token 3 4 (some 1) (some 2) fuel
      c6_state_looping 2 4 0 count = Res.timeout
  | 0, _ => rfl
  | fuel + 1, count => by
      unfold Parser.adoption_inner
      dsimp only
      rw [if_neg (show ¬((2 : NodeId) = 3) by decide)]
      simp only [show (Afe.contains c6_state_looping.active_formatting_elements 2) = false
          from rfl,
        Bool.and_false, Bool.not_false, Bool.false_eq_true, if_false, if_true,
        eq_self_iff_true, reduceIte]
      exact c6_inner_timeout fuel (count + 1)

/-- The first inner iteration on `c6_state_err` removes the intervening a
element and lands exactly on the looping state; thereafter the loop never
reaches the formatting element. -/
theorem c6_inner_timeout_from_start : ∀ fuel : Nat,
    Parser.adoption_inner c6_token 3 4 (some 1) (some 2) fuel
      c6_state_err 4 4 0 0 = Res.timeout
  | 0 => rfl
  | fuel + 1 => c6_inner_timeout fuel 1

/-- C6: the adoption agency algorithm does not terminate on `c6_state` and
the end tag `</b>`: for every fuel the run times out, because the inner
loop's `node_above_node` is computed once before the loop and never
advances past the element above the furthest block. -/
theorem c6_adoption_agency_diverges (fuel : Nat) :
    Parser.run_adoption_agency_algorithm fuel c6_state c6_token = Res.timeout := by
  have hb : ∀ (f : Parser × NodeId × Nat → Res Parser),
      Res.bind (Parser.adoption_inner c6_token 3 4 (some 1) (some 2) fuel
        c6_state_err 4 4 0 0) f = Res.timeout := by
    intro f
    rw [c6_inner_timeout_from_start fuel]
    rfl
  exact hb _

end Laster
